import Mathlib

/-!
Shallow embedding of the core match-scoring logic of
`src/tennistracker.cpp` (AdvancedTennisTracker): data model, point
application, tiebreak serving, statistics attribution, and the
snapshot-based undo stack.  I/O (menus, printing, file export) is
out of scope; the interactive menu paths that complete a point are
represented by the `Event` type, and the top-level main-loop
operations by the `Op` type.

Players are represented as in the source: `Nat` ids where player 1
is `0` and player 2 is `1`; the "other player" of `p` is
`if p = 0 then 1 else 0`, exactly as the C++ writes `(p==0?1:0)`.
C++ `int` counters are non-negative throughout the program, so they
are embedded as `Nat`; every comparison involving a C++ subtraction
(`abs(a-b) >= 2`, `gy - g_opp >= 2`) is rendered with addition on
`Nat` so that the truth value agrees with the C++ `int` arithmetic.
-/

namespace TennisTracker

/-- `enum ServeType`. -/
inductive ServeType where
  | none
  | first
  | second
deriving DecidableEq, Repr

/-- `enum DecidingSetType`. -/
inductive DecidingSetType where
  | regular
  | tb10
deriving DecidableEq, Repr

/-- `struct FormatConfig`. -/
structure FormatConfig where
  games_to_win_set : Nat := 6
  tiebreak_at_games : Nat := 6
  set_tiebreak_points : Nat := 7
  deciding : DecidingSetType := .regular
  deciding_tb_points : Nat := 10
deriving DecidableEq, Repr

/-- `struct PlayerStats`: all counters start at 0. -/
structure PlayerStats where
  first_serves_attempted : Nat := 0
  first_serves_in : Nat := 0
  second_serves_attempted : Nat := 0
  second_serves_in : Nat := 0
  aces_first : Nat := 0
  aces_second : Nat := 0
  service_winners_first : Nat := 0
  service_winners_second : Nat := 0
  double_faults : Nat := 0
  points_won_on_first_serve : Nat := 0
  points_won_on_second_serve : Nat := 0
  return_points_won_vs_first : Nat := 0
  return_points_won_vs_second : Nat := 0
  return_winners : Nat := 0
  return_unforced_errors : Nat := 0
  return_forced_errors : Nat := 0
  rally_winners : Nat := 0
  unforced_errors : Nat := 0
  forced_errors_drawn : Nat := 0
  net_points_won : Nat := 0
  net_points_total : Nat := 0
  break_points_won : Nat := 0
  break_points_total : Nat := 0
  points_won : Nat := 0
  points_played : Nat := 0
deriving DecidableEq, Repr

/-- `struct PointLogEntry`. -/
structure PointLogEntry where
  set_index : Nat := 0
  game_index : Nat := 0
  in_tiebreak : Bool := false
  tiebreak_point_number : Nat := 0
  point_number_in_game : Nat := 0
  server_player : Nat := 0
  serve_type : ServeType := .none
  event_chain : String := ""
  point_winner : Nat := 0
  was_break_point : Bool := false
  was_game_point : Bool := false
  was_set_point : Bool := false
  was_match_point : Bool := false
deriving DecidableEq, Repr

/-- `struct SetScore`. -/
structure SetScore where
  games_player1 : Nat := 0
  games_player2 : Nat := 0
  set_finished : Bool := false
  set_tiebreak_played : Bool := false
  tb_points_p1 : Nat := 0
  tb_points_p2 : Nat := 0
deriving DecidableEq, Repr

/-- Default-initialized `PlayerStats` (all counters 0). -/
def PlayerStats.init : PlayerStats := {}

/-- Default-initialized `SetScore`. -/
def SetScore.init : SetScore := {}

/-- `struct MatchState` (player-name / location strings are I/O meta and
are dropped; everything scoring-relevant is kept). -/
structure MatchState where
  format : FormatConfig := {}
  best_of_sets : Nat := 3
  sets_to_win : Nat := 2
  sets : List SetScore := []
  per_set_stats_p1 : List PlayerStats := []
  per_set_stats_p2 : List PlayerStats := []
  current_set_index : Nat := 0
  game_points_p1 : Nat := 0
  game_points_p2 : Nat := 0
  in_set_tiebreak : Bool := false
  in_match_tiebreak10 : Bool := false
  tb_points_p1 : Nat := 0
  tb_points_p2 : Nat := 0
  tb_start_server : Nat := 0
  current_server : Nat := 0
  sets_won_p1 : Nat := 0
  sets_won_p2 : Nat := 0
  match_stats_p1 : PlayerStats := {}
  match_stats_p2 : PlayerStats := {}
  current_point_serve : ServeType := .none
  log_entries : List PointLogEntry := []
deriving DecidableEq, Repr

/-- The other player of `p`: C++ `(p==0?1:0)`. -/
def otherPlayer (p : Nat) : Nat := if p = 0 then 1 else 0

/-- Update the `i`-th element of a list in place (no-op when out of
range), modelling `v[i] = f(v[i])` on a `std::vector`. -/
def updAt : List α → Nat → (α → α) → List α
  | [], _, _ => []
  | a :: l, 0, f => f a :: l
  | a :: l, n + 1, f => a :: updAt l n f

@[simp] theorem updAt_nil (n : Nat) (f : α → α) : updAt ([] : List α) n f = [] := by
  cases n <;> rfl

@[simp] theorem updAt_cons_zero (a : α) (l : List α) (f : α → α) :
    updAt (a :: l) 0 f = f a :: l := rfl

@[simp] theorem updAt_cons_succ (a : α) (l : List α) (n : Nat) (f : α → α) :
    updAt (a :: l) (n + 1) f = a :: updAt l n f := rfl

@[simp] theorem length_updAt (l : List α) (n : Nat) (f : α → α) :
    (updAt l n f).length = l.length := by
  induction l generalizing n with
  | nil => simp
  | cons a l ih => cases n <;> simp [ih]

theorem getD_updAt_ne (l : List α) (n i : Nat) (f : α → α) (d : α) (h : i ≠ n) :
    (updAt l n f).getD i d = l.getD i d := by
  induction l generalizing n i with
  | nil => simp
  | cons a l ih =>
    cases n with
    | zero => cases i with
      | zero => exact absurd rfl h
      | succ j => simp [List.getD]
    | succ m => cases i with
      | zero => simp [List.getD]
      | succ j =>
        simp only [updAt_cons_succ, List.getD_cons_succ]
        exact ih m j (by omega)

theorem getD_updAt_self (l : List α) (n : Nat) (f : α → α) (d : α) (h : n < l.length) :
    (updAt l n f).getD n d = f (l.getD n d) := by
  induction l generalizing n with
  | nil => simp at h
  | cons a l ih =>
    cases n with
    | zero => simp [List.getD]
    | succ m =>
      simp only [updAt_cons_succ, List.getD_cons_succ]
      exact ih m (by simpa using h)

/-! ## Scoring helpers and state transitions -/

/-- `compute_tiebreak_server`: enforce the 1-2-2 pattern.  With
`total = tb_points_p1 + tb_points_p2` points already played, the server
is `tb_start_server` when `total % 4 ∈ {0, 3}`, else the opponent.
(The change-of-ends console cue is I/O and is omitted.) -/
def compute_tiebreak_server (st : MatchState) : MatchState :=
  let total := st.tb_points_p1 + st.tb_points_p2
  let mod4 := total % 4
  let start := st.tb_start_server
  let opp := if start = 0 then 1 else 0
  if mod4 = 0 ∨ mod4 = 3 then { st with current_server := start }
  else { st with current_server := opp }

/-- `is_game_point_for`. -/
def is_game_point_for (gp_winner gp_loser : Nat) : Bool :=
  if gp_winner ≤ 2 then false
  else if gp_winner = 3 ∧ gp_loser ≤ 2 then true
  else if 3 ≤ gp_winner ∧ 3 ≤ gp_loser then
    (if gp_winner = gp_loser + 1 then true else false)
  else false

/-- `is_break_point_if_receiver_wins`. -/
def is_break_point_if_receiver_wins (st : MatchState) : Bool :=
  let receiver := otherPlayer st.current_server
  let gp_receiver := if receiver = 0 then st.game_points_p1 else st.game_points_p2
  let gp_server := if receiver = 0 then st.game_points_p2 else st.game_points_p1
  is_game_point_for gp_receiver gp_server

/-- `is_set_point_if_player_wins`.  C++ computes `gy - g_opp >= 2` on
`int`; on `Nat` this is rendered as `g_opp + 2 ≤ gy`, which has the same
truth value since both counts are non-negative. -/
def is_set_point_if_player_wins (st : MatchState) (player : Nat) : Bool :=
  if st.in_set_tiebreak ∨ st.in_match_tiebreak10 then false
  else
    let ss := st.sets.getD st.current_set_index SetScore.init
    let gp_you := if player = 0 then st.game_points_p1 else st.game_points_p2
    let gp_opp := if player = 0 then st.game_points_p2 else st.game_points_p1
    if ¬ is_game_point_for gp_you gp_opp then false
    else
      let g_you := if player = 0 then ss.games_player1 else ss.games_player2
      let g_opp := if player = 0 then ss.games_player2 else ss.games_player1
      let gy := g_you + 1
      if st.format.games_to_win_set ≤ gy ∧ g_opp + 2 ≤ gy then true else false

/-- `is_match_point_if_player_wins`. -/
def is_match_point_if_player_wins (st : MatchState) (player : Nat) : Bool :=
  if st.in_set_tiebreak ∨ st.in_match_tiebreak10 then false
  else if ¬ is_set_point_if_player_wins st player then false
  else
    let sets_have := if player = 0 then st.sets_won_p1 else st.sets_won_p2
    sets_have + 1 = st.sets_to_win

/-- `add_stats_point_ownership(winner, loser)`: returns the updated
(winner, loser) pair of `PlayerStats`. -/
def add_stats_point_ownership (winner loser : PlayerStats) : PlayerStats × PlayerStats :=
  ({ winner with points_won := winner.points_won + 1,
                 points_played := winner.points_played + 1 },
   { loser with points_played := loser.points_played + 1 })

/-- `add_stats_net`. -/
def add_stats_net (who : PlayerStats) (won : Bool) : PlayerStats :=
  let who := { who with net_points_total := who.net_points_total + 1 }
  if won then { who with net_points_won := who.net_points_won + 1 } else who

/-- `start_new_set`: push a fresh `SetScore` and fresh per-set stats,
point the current index at the new last element, and reset game and
set-tiebreak state. -/
def start_new_set (st : MatchState) : MatchState :=
  let sets := st.sets ++ [SetScore.init]
  { st with
    sets := sets
    per_set_stats_p1 := st.per_set_stats_p1 ++ [PlayerStats.init]
    per_set_stats_p2 := st.per_set_stats_p2 ++ [PlayerStats.init]
    current_set_index := sets.length - 1
    game_points_p1 := 0
    game_points_p2 := 0
    in_set_tiebreak := false
    tb_points_p1 := 0
    tb_points_p2 := 0 }

/-- `award_game`: increment the winner's game count in the current set,
alternate the server, and reset both game-point counters. -/
def award_game (st : MatchState) (player : Nat) : MatchState :=
  let sets := updAt st.sets st.current_set_index (fun ss =>
    if player = 0 then { ss with games_player1 := ss.games_player1 + 1 }
    else { ss with games_player2 := ss.games_player2 + 1 })
  { st with
    sets := sets
    current_server := otherPlayer st.current_server
    game_points_p1 := 0
    game_points_p2 := 0 }

/-- `check_enter_set_tiebreak`. -/
def check_enter_set_tiebreak (st : MatchState) : Bool :=
  let ss := st.sets.getD st.current_set_index SetScore.init
  ss.games_player1 = st.format.tiebreak_at_games ∧
    ss.games_player2 = st.format.tiebreak_at_games

/-- `set_is_won_now`: `some winner` when the current set is decided.
C++ `abs(a-b) >= 2` on `int` becomes `a + 2 ≤ b ∨ b + 2 ≤ a` on `Nat`. -/
def set_is_won_now (st : MatchState) : Option Nat :=
  if st.in_set_tiebreak then
    if (st.format.set_tiebreak_points ≤ st.tb_points_p1 ∨
        st.format.set_tiebreak_points ≤ st.tb_points_p2) ∧
       (st.tb_points_p1 + 2 ≤ st.tb_points_p2 ∨ st.tb_points_p2 + 2 ≤ st.tb_points_p1) then
      some (if st.tb_points_p2 < st.tb_points_p1 then 0 else 1)
    else none
  else
    let ss := st.sets.getD st.current_set_index SetScore.init
    let g1 := ss.games_player1
    let g2 := ss.games_player2
    if (st.format.games_to_win_set ≤ g1 ∨ st.format.games_to_win_set ≤ g2) ∧
       (g1 + 2 ≤ g2 ∨ g2 + 2 ≤ g1) then
      some (if g2 < g1 then 0 else 1)
    else none

/-- `close_set_and_prepare_next`: freeze the closed set, credit the set
winner, and either start a new set or switch into the match
tiebreak-10 decider. -/
def close_set_and_prepare_next (st : MatchState) (set_winner : Nat) : MatchState :=
  let sets := updAt st.sets st.current_set_index (fun ss => { ss with set_finished := true })
  let st := { st with sets := sets }
  let st := if set_winner = 0 then { st with sets_won_p1 := st.sets_won_p1 + 1 }
            else { st with sets_won_p2 := st.sets_won_p2 + 1 }
  let match_over := st.sets_won_p1 = st.sets_to_win ∨ st.sets_won_p2 = st.sets_to_win
  if ¬ match_over then
    if st.sets.length = 2 ∧ st.format.deciding = .tb10 ∧
       st.sets_won_p1 = 1 ∧ st.sets_won_p2 = 1 then
      { st with in_match_tiebreak10 := true, tb_points_p1 := 0, tb_points_p2 := 0 }
    else
      start_new_set st
  else st

/-- `match_tiebreak10_won`. -/
def match_tiebreak10_won (st : MatchState) : Option Nat :=
  if ¬ st.in_match_tiebreak10 then none
  else if (st.format.deciding_tb_points ≤ st.tb_points_p1 ∨
           st.format.deciding_tb_points ≤ st.tb_points_p2) ∧
          (st.tb_points_p1 + 2 ≤ st.tb_points_p2 ∨ st.tb_points_p2 + 2 ≤ st.tb_points_p1) then
    some (if st.tb_points_p2 < st.tb_points_p1 then 0 else 1)
  else none

/-- `match_is_over_now`. -/
def match_is_over_now (st : MatchState) : Bool :=
  st.sets_won_p1 = st.sets_to_win ∨ st.sets_won_p2 = st.sets_to_win

/-! ## Stats updates

Each C++ helper mutates the chosen player's match-level stats and the
same player's stats entry for the current set.  `updPlayerMatch` /
`updPlayerSet` model the reference selection `(p==0? stats_p1 : stats_p2)`. -/

/-- Apply `f` to player `p`'s match-level stats. -/
def updPlayerMatch (st : MatchState) (p : Nat) (f : PlayerStats → PlayerStats) : MatchState :=
  if p = 0 then { st with match_stats_p1 := f st.match_stats_p1 }
  else { st with match_stats_p2 := f st.match_stats_p2 }

/-- Apply `f` to player `p`'s stats entry for the current set. -/
def updPlayerSet (st : MatchState) (p : Nat) (f : PlayerStats → PlayerStats) : MatchState :=
  if p = 0 then
    { st with per_set_stats_p1 := updAt st.per_set_stats_p1 st.current_set_index f }
  else
    { st with per_set_stats_p2 := updAt st.per_set_stats_p2 st.current_set_index f }

/-- Apply `f` at both levels (the `ms`/`ps` pair in the C++ helpers). -/
def updPlayerBoth (st : MatchState) (p : Nat) (f : PlayerStats → PlayerStats) : MatchState :=
  updPlayerSet (updPlayerMatch st p f) p f

/-- `add_serve_attempt`. -/
def add_serve_attempt (st : MatchState) (server : Nat) (t : ServeType)
    (in_or_fault : Bool) : MatchState :=
  updPlayerBoth st server (fun s =>
    match t with
    | .first =>
      let s := { s with first_serves_attempted := s.first_serves_attempted + 1 }
      if in_or_fault then { s with first_serves_in := s.first_serves_in + 1 } else s
    | .second =>
      let s := { s with second_serves_attempted := s.second_serves_attempted + 1 }
      if in_or_fault then { s with second_serves_in := s.second_serves_in + 1 } else s
    | .none => s)

/-- `add_double_fault`. -/
def add_double_fault (st : MatchState) (server : Nat) : MatchState :=
  updPlayerBoth st server (fun s => { s with double_faults := s.double_faults + 1 })

/-- `add_ace`. -/
def add_ace (st : MatchState) (server : Nat) (t : ServeType) : MatchState :=
  updPlayerBoth st server (fun s =>
    match t with
    | .first => { s with aces_first := s.aces_first + 1 }
    | .second => { s with aces_second := s.aces_second + 1 }
    | .none => s)

/-- `add_service_winner`. -/
def add_service_winner (st : MatchState) (server : Nat) (t : ServeType) : MatchState :=
  updPlayerBoth st server (fun s =>
    match t with
    | .first => { s with service_winners_first := s.service_winners_first + 1 }
    | .second => { s with service_winners_second := s.service_winners_second + 1 }
    | .none => s)

/-- Return-outcome kinds (`"winner"` / `"ue"` / `"fe"` string tags). -/
inductive ReturnKind where
  | winner
  | ue
  | fe
deriving DecidableEq, Repr

/-- `add_return_outcome`. -/
def add_return_outcome (st : MatchState) (returner : Nat) (kind : ReturnKind) : MatchState :=
  updPlayerBoth st returner (fun s =>
    match kind with
    | .winner => { s with return_winners := s.return_winners + 1 }
    | .ue => { s with return_unforced_errors := s.return_unforced_errors + 1 }
    | .fe => { s with return_forced_errors := s.return_forced_errors + 1 })

/-- Rally-outcome kinds (`"winner"` / `"ue"` / `"fedrawn"` string tags). -/
inductive RallyKind where
  | winner
  | ue
  | fedrawn
deriving DecidableEq, Repr

/-- `add_rally_outcome`. -/
def add_rally_outcome (st : MatchState) (player : Nat) (kind : RallyKind) : MatchState :=
  updPlayerBoth st player (fun s =>
    match kind with
    | .winner => { s with rally_winners := s.rally_winners + 1 }
    | .ue => { s with unforced_errors := s.unforced_errors + 1 }
    | .fedrawn => { s with forced_errors_drawn := s.forced_errors_drawn + 1 })

/-- `add_return_points_won`. -/
def add_return_points_won (st : MatchState) (returner : Nat) (t : ServeType) : MatchState :=
  updPlayerBoth st returner (fun s =>
    match t with
    | .first => { s with return_points_won_vs_first := s.return_points_won_vs_first + 1 }
    | .second => { s with return_points_won_vs_second := s.return_points_won_vs_second + 1 }
    | .none => s)

/-- `add_server_point_won`. -/
def add_server_point_won (st : MatchState) (server : Nat) (t : ServeType) : MatchState :=
  updPlayerBoth st server (fun s =>
    match t with
    | .first => { s with points_won_on_first_serve := s.points_won_on_first_serve + 1 }
    | .second => { s with points_won_on_second_serve := s.points_won_on_second_serve + 1 }
    | .none => s)

/-- `maybe_count_break_point`. -/
def maybe_count_break_point (st : MatchState) (was_bp returner_won : Bool) : MatchState :=
  if ¬ was_bp then st
  else
    let returner_player := otherPlayer st.current_server
    updPlayerBoth st returner_player (fun s =>
      let s := { s with break_points_total := s.break_points_total + 1 }
      if returner_won then { s with break_points_won := s.break_points_won + 1 } else s)

/-! ## Core point logic -/

/-- Increment the point winner's regular-game point counter
(`give_point_regular`, first line). -/
def bump_game_point (st : MatchState) (winner_player : Nat) : MatchState :=
  if winner_player = 0 then { st with game_points_p1 := st.game_points_p1 + 1 }
  else { st with game_points_p2 := st.game_points_p2 + 1 }

/-- The set-tiebreak entry block of `give_point_regular` (run after
`award_game` when both game counts hit the tiebreak trigger). -/
def enter_set_tiebreak (st : MatchState) : MatchState :=
  { st with
    in_set_tiebreak := true
    sets := updAt st.sets st.current_set_index
      (fun ss => { ss with set_tiebreak_played := true })
    tb_points_p1 := 0
    tb_points_p2 := 0
    tb_start_server := st.current_server }

/-- Tail of `give_point_regular` after `award_game`: possibly enter the
set tiebreak, else check for a set win and close the set. -/
def after_game_award (st : MatchState) : MatchState :=
  let st := if ¬ st.in_match_tiebreak10 ∧ check_enter_set_tiebreak st then
              enter_set_tiebreak st
            else st
  if ¬ st.in_set_tiebreak then
    match set_is_won_now st with
    | some w => close_set_and_prepare_next st w
    | none => st
  else st

/-- `give_point_regular`. -/
def give_point_regular (st : MatchState) (winner_player : Nat) : MatchState :=
  let st := bump_game_point st winner_player
  let p1 := st.game_points_p1
  let p2 := st.game_points_p2
  if 4 ≤ p1 ∨ 4 ≤ p2 then
    if p1 + 2 ≤ p2 ∨ p2 + 2 ≤ p1 then
      after_game_award (award_game st (if p2 < p1 then 0 else 1))
    else st
  else st

/-- `give_point_tiebreak`. -/
def give_point_tiebreak (st : MatchState) (winner_player : Nat) (is_set_tb : Bool) :
    MatchState :=
  let st := if winner_player = 0 then { st with tb_points_p1 := st.tb_points_p1 + 1 }
            else { st with tb_points_p2 := st.tb_points_p2 + 1 }
  if is_set_tb then
    match set_is_won_now st with
    | some w =>
      let sets := updAt st.sets st.current_set_index (fun ss =>
        { ss with tb_points_p1 := st.tb_points_p1, tb_points_p2 := st.tb_points_p2 })
      let st := { st with sets := sets, in_set_tiebreak := false }
      close_set_and_prepare_next st w
    | none => st
  else
    match match_tiebreak10_won st with
    | some mw =>
      let st := if mw = 0 then { st with sets_won_p1 := st.sets_won_p1 + 1 }
                else { st with sets_won_p2 := st.sets_won_p2 + 1 }
      let last := st.sets.getLastD SetScore.init
      let fin : SetScore :=
        { games_player1 := last.games_player1
          games_player2 := last.games_player2
          set_tiebreak_played := true
          tb_points_p1 := st.tb_points_p1
          tb_points_p2 := st.tb_points_p2 }
      { st with
        sets := st.sets ++ [fin]
        per_set_stats_p1 := st.per_set_stats_p1 ++ [PlayerStats.init]
        per_set_stats_p2 := st.per_set_stats_p2 ++ [PlayerStats.init]
        in_match_tiebreak10 := false }
    | none => st

/-! ## Point events

`record_point_and_stats` is menu-driven in the source; an `Event`
records the complete chain of menu choices that finishes one point. -/

/-- How the serve landed in, for points decided after the serve
(menu items 1, 2-then-in, 3). -/
inductive ServeInKind where
  | firstIn
  | faultThenSecondIn
  | secondIn
deriving DecidableEq, Repr

/-- Rally-menu outcomes (items 1-6). -/
inductive RallyChoice where
  | serverWinner
  | returnerWinner
  | serverUE
  | returnerUE
  | serverFE
  | returnerFE
deriving DecidableEq, Repr

/-- What happened after a serve landed in: return-menu items 1-3, or
item 4 (return in) followed by a rally outcome with an optional net
mark (`some np` with raw menu choice `np`; `np = 1` marks player 1). -/
inductive AfterServe where
  | returnWinner
  | returnUE
  | returnFE
  | rally (rv : RallyChoice) (net : Option Nat)
deriving DecidableEq, Repr

/-- A completed point event. -/
inductive Event where
  | serveIn (sk : ServeInKind) (k : AfterServe)
  | doubleFault (after_first_fault : Bool)
  | aceFirst
  | aceSecond
  | serviceWinnerFirst
  | serviceWinnerSecond
deriving DecidableEq, Repr

/-- The winner of the point, as assigned by each branch of
`record_point_and_stats` (`st` must be the state after the tiebreak
server recomputation). -/
def point_winner_of (st : MatchState) (ev : Event) : Nat :=
  let server := st.current_server
  let returner := otherPlayer server
  match ev with
  | .doubleFault _ => returner
  | .aceFirst | .aceSecond | .serviceWinnerFirst | .serviceWinnerSecond => server
  | .serveIn _ k =>
    match k with
    | .returnWinner => returner
    | .returnUE => server
    | .returnFE => server
    | .rally rv _ =>
      match rv with
      | .serverWinner | .returnerUE | .returnerFE => server
      | .returnerWinner | .serverUE | .serverFE => returner

/-- `add_stats_point_ownership(mw, ml)` applied to the match-level
stats selected by `(winner_sel==0? p1 : p2)` and `(loser_sel==0? p1 : p2)`
(the source applies point ownership to match-level stats only). -/
def apply_point_ownership (st : MatchState) (winner_sel loser_sel : Nat) : MatchState :=
  let st := updPlayerMatch st winner_sel (fun s =>
    { s with points_won := s.points_won + 1, points_played := s.points_played + 1 })
  updPlayerMatch st loser_sel (fun s =>
    { s with points_played := s.points_played + 1 })

/-- `st.current_point_serve = t`. -/
def set_current_point_serve (st : MatchState) (t : ServeType) : MatchState :=
  { st with current_point_serve := t }

/-- The net-mark block of the rally branch: `add_stats_net` on the
marked player's match-level and current-set stats, won iff that player
won the point (`np` is the raw menu choice; `1` marks player 1). -/
def apply_net_mark (st : MatchState) (np point_winner : Nat) : MatchState :=
  let net_player := if np = 1 then 0 else 1
  updPlayerBoth st net_player (fun s => add_stats_net s (point_winner == net_player))

/-- Append a finished entry to the point log (`log_entries.push_back`). -/
def push_log (st : MatchState) (entry : PointLogEntry) : MatchState :=
  { st with log_entries := st.log_entries ++ [entry] }

/-- All stats updates and the log append for one completed point:
the body of `record_point_and_stats` between the pre-point flag
computation and the final `give_point_*` dispatch, with the menu
choices supplied by `ev`. -/
def apply_event_stats (st : MatchState) (was_bp : Bool) (entry0 : PointLogEntry)
    (ev : Event) : MatchState :=
  let server := st.current_server
  let returner := otherPlayer server
  match ev with
  | .doubleFault after_first_fault =>
    let stE :=
      if after_first_fault then
        let st := add_serve_attempt st server .first false
        let entry0 := { entry0 with event_chain := entry0.event_chain ++ "1st fault -> " }
        let st := set_current_point_serve st ServeType.second
        let st := add_serve_attempt st server .second false
        (st, entry0)
      else
        let st := set_current_point_serve st ServeType.second
        let st := add_serve_attempt st server .second false
        (st, entry0)
    let st := add_double_fault stE.1 server
    let entry := { stE.2 with
      event_chain := stE.2.event_chain ++ "double fault."
      serve_type := ServeType.second
      point_winner := returner }
    let st := apply_point_ownership st returner server
    let st := maybe_count_break_point st was_bp true
    push_log st entry
  | .aceFirst =>
    let st := set_current_point_serve st ServeType.first
    let st := add_serve_attempt st server .first true
    let st := add_ace st server .first
    let st := add_server_point_won st server .first
    let entry := { entry0 with
      event_chain := entry0.event_chain ++ "Ace (1st)."
      serve_type := ServeType.first
      point_winner := server }
    let st := apply_point_ownership st server returner
    let st := maybe_count_break_point st was_bp false
    push_log st entry
  | .aceSecond =>
    let st := set_current_point_serve st ServeType.second
    let st := add_serve_attempt st server .second true
    let st := add_ace st server .second
    let st := add_server_point_won st server .second
    let entry := { entry0 with
      event_chain := entry0.event_chain ++ "Ace (2nd)."
      serve_type := ServeType.second
      point_winner := server }
    let st := apply_point_ownership st server returner
    let st := maybe_count_break_point st was_bp false
    push_log st entry
  | .serviceWinnerFirst =>
    let st := set_current_point_serve st ServeType.first
    let st := add_serve_attempt st server .first true
    let st := add_service_winner st server .first
    let st := add_server_point_won st server .first
    let entry := { entry0 with
      event_chain := entry0.event_chain ++ "Service winner (1st)."
      serve_type := ServeType.first
      point_winner := server }
    let st := apply_point_ownership st server returner
    let st := maybe_count_break_point st was_bp false
    push_log st entry
  | .serviceWinnerSecond =>
    let st := set_current_point_serve st ServeType.second
    let st := add_serve_attempt st server .second true
    let st := add_service_winner st server .second
    let st := add_server_point_won st server .second
    let entry := { entry0 with
      event_chain := entry0.event_chain ++ "Service winner (2nd)."
      serve_type := ServeType.second
      point_winner := server }
    let st := apply_point_ownership st server returner
    let st := maybe_count_break_point st was_bp false
    push_log st entry
  | .serveIn sk k =>
    let stE :=
      match sk with
      | .firstIn =>
        let st := set_current_point_serve st ServeType.first
        let st := add_serve_attempt st server .first true
        (st, { entry0 with event_chain := entry0.event_chain ++ "1st in; " })
      | .faultThenSecondIn =>
        let st := add_serve_attempt st server .first false
        let entry0 := { entry0 with event_chain := entry0.event_chain ++ "1st fault -> " }
        let st := set_current_point_serve st ServeType.second
        let st := add_serve_attempt st server .second true
        (st, { entry0 with event_chain := entry0.event_chain ++ "2nd in; " })
      | .secondIn =>
        let st := set_current_point_serve st ServeType.second
        let st := add_serve_attempt st server .second true
        (st, { entry0 with event_chain := entry0.event_chain ++ "2nd in; " })
    let st := stE.1
    let entry0 := stE.2
    match k with
    | .returnWinner =>
      let st := add_return_outcome st returner .winner
      let st := add_return_points_won st returner st.current_point_serve
      let entry := { entry0 with
        event_chain := entry0.event_chain ++ "Return winner."
        serve_type := st.current_point_serve
        point_winner := returner }
      let st := apply_point_ownership st returner server
      let st := maybe_count_break_point st was_bp true
      push_log st entry
    | .returnUE =>
      let st := add_return_outcome st returner .ue
      let st := add_server_point_won st server st.current_point_serve
      let entry := { entry0 with
        event_chain := entry0.event_chain ++ "Return UE."
        serve_type := st.current_point_serve
        point_winner := server }
      let st := apply_point_ownership st server returner
      let st := maybe_count_break_point st was_bp false
      push_log st entry
    | .returnFE =>
      let st := add_return_outcome st returner .fe
      let st := add_rally_outcome st server .fedrawn
      let st := add_server_point_won st server st.current_point_serve
      let entry := { entry0 with
        event_chain := entry0.event_chain ++ "Return FE (drawn by server)."
        serve_type := st.current_point_serve
        point_winner := server }
      let st := apply_point_ownership st server returner
      let st := maybe_count_break_point st was_bp false
      push_log st entry
    | .rally rv net =>
      let entry0 := { entry0 with event_chain := entry0.event_chain ++ "Return in; " }
      let stWD :=
        match rv with
        | .serverWinner =>
          let st := add_rally_outcome st server .winner
          let st := add_server_point_won st server st.current_point_serve
          (st, server, "Rally: server winner.")
        | .returnerWinner =>
          let st := add_rally_outcome st returner .winner
          let st := add_return_points_won st returner st.current_point_serve
          (st, returner, "Rally: returner winner.")
        | .serverUE =>
          let st := add_rally_outcome st server .ue
          let st := add_return_points_won st returner st.current_point_serve
          (st, returner, "Rally: server UE.")
        | .returnerUE =>
          let st := add_rally_outcome st returner .ue
          let st := add_server_point_won st server st.current_point_serve
          (st, server, "Rally: returner UE.")
        | .serverFE =>
          let st := add_rally_outcome st returner .fedrawn
          let st := add_return_points_won st returner st.current_point_serve
          (st, returner, "Rally: server FE (drawn by returner).")
        | .returnerFE =>
          let st := add_rally_outcome st server .fedrawn
          let st := add_server_point_won st server st.current_point_serve
          (st, server, "Rally: returner FE (drawn by server).")
      let st := stWD.1
      let point_winner := stWD.2.1
      let st := apply_point_ownership st point_winner (otherPlayer point_winner)
      let st :=
        match net with
        | Option.none => st
        | some np => apply_net_mark st np point_winner
      let st := maybe_count_break_point st was_bp (point_winner == returner)
      let entry := { entry0 with
        event_chain := entry0.event_chain ++ stWD.2.2
        serve_type := st.current_point_serve
        point_winner := point_winner }
      push_log st entry

/-- The final dispatch of `record_point_and_stats`:
`give_point_tiebreak` in a tiebreak, else `give_point_regular`. -/
def finish_point (st : MatchState) (w : Nat) : MatchState :=
  if st.in_set_tiebreak then give_point_tiebreak st w true
  else if st.in_match_tiebreak10 then give_point_tiebreak st w false
  else give_point_regular st w

/-- The tiebreak-server recomputation at the head of
`record_point_and_stats` (a no-op outside tiebreaks). -/
def pre_point_state (st : MatchState) : MatchState :=
  if st.in_set_tiebreak || st.in_match_tiebreak10 then compute_tiebreak_server st
  else st

/-- `record_point_and_stats` for one completed point event.
(The `push_history` at its head is modelled at the `Op` level; the
admin sub-menu paths that abort the point are not point events.) -/
def record_point_and_stats (st : MatchState) (ev : Event) : MatchState :=
  let st := pre_point_state st
  let in_tb := st.in_set_tiebreak || st.in_match_tiebreak10
  let was_break_point := if in_tb then false else is_break_point_if_receiver_wins st
  let was_game_point := if in_tb then false else
    (is_game_point_for st.game_points_p1 st.game_points_p2 ||
     is_game_point_for st.game_points_p2 st.game_points_p1)
  let was_set_point := if in_tb then false else
    (is_set_point_if_player_wins st 0 || is_set_point_if_player_wins st 1)
  let was_match_point := if in_tb then false else
    (is_match_point_if_player_wins st 0 || is_match_point_if_player_wins st 1)
  let ss := st.sets.getD st.current_set_index SetScore.init
  let entry0 : PointLogEntry :=
    { set_index := st.current_set_index
      game_index := ss.games_player1 + ss.games_player2
      in_tiebreak := in_tb
      tiebreak_point_number := st.tb_points_p1 + st.tb_points_p2 + 1
      point_number_in_game := st.game_points_p1 + st.game_points_p2 + 1
      server_player := st.current_server
      was_break_point := was_break_point
      was_game_point := was_game_point
      was_set_point := was_set_point
      was_match_point := was_match_point }
  let w := point_winner_of st ev
  finish_point (apply_event_stats st was_break_point entry0 ev) w

/-! ## History stack, top-level operations, initial state -/

/-- The live state together with the undo history stack (the global
`history_stack`; head of the list = top of the stack). -/
abbrev Sys := MatchState × List MatchState

/-- `pop_history`: `false` and no change when the stack is empty, else
restore the top snapshot. -/
def pop_history (sys : Sys) : Bool × Sys :=
  match sys.2 with
  | [] => (false, sys)
  | s :: rest => (true, (s, rest))

/-- One main-loop operation. -/
inductive Op where
  | point (ev : Event)
  | undo
  | chooseTB10Server (choice : Nat)
deriving DecidableEq, Repr

/-- One iteration of the main loop: record a point (pushing the
pre-point snapshot first; no-op once the match is over), undo
(`pop_history`), or answer the "who serves first in the match TB10?"
prompt (only asked while the TB10 is at 0-0). -/
def applyOp (sys : Sys) (op : Op) : Sys :=
  match op with
  | .point ev =>
    if match_is_over_now sys.1 then sys
    else (record_point_and_stats sys.1 ev, sys.1 :: sys.2)
  | .undo => (pop_history sys).2
  | .chooseTB10Server c =>
    let st := sys.1
    if st.in_match_tiebreak10 = true ∧ st.tb_points_p1 = 0 ∧ st.tb_points_p2 = 0 then
      let sv := if c = 2 then 1 else 0
      ({ st with tb_start_server := sv, current_server := sv }, sys.2)
    else sys

/-- A sequence of main-loop operations. -/
def applyOps (sys : Sys) (ops : List Op) : Sys := ops.foldl applyOp sys

/-- `get_format_by_choice`. -/
def get_format_by_choice (c : Nat) : FormatConfig :=
  if c = 1 then
    { games_to_win_set := 6, tiebreak_at_games := 6, set_tiebreak_points := 7,
      deciding := .regular, deciding_tb_points := 10 }
  else if c = 2 then
    { games_to_win_set := 6, tiebreak_at_games := 6, set_tiebreak_points := 7,
      deciding := .tb10, deciding_tb_points := 10 }
  else
    { games_to_win_set := 4, tiebreak_at_games := 4, set_tiebreak_points := 7,
      deciding := .regular, deciding_tb_points := 10 }

/-- The state at the start of the match: `main` reads the first server
(`sfirst`, choice 2 = player 2) and the format choice, then runs
`start_new_set`. -/
def initState (sfirst fchoice : Nat) : MatchState :=
  start_new_set
    { current_server := if sfirst = 2 then 1 else 0
      format := get_format_by_choice fchoice }

/-- Initial system: fresh match, empty history. -/
def initSys (sfirst fchoice : Nat) : Sys := (initState sfirst fchoice, [])

/-- One point event as driven by the main loop (no more points are
accepted once the match is over). -/
def stepPoint (st : MatchState) (ev : Event) : MatchState :=
  if match_is_over_now st then st else record_point_and_stats st ev

/-- A sequence of point events applied from a state. -/
def applyPoints (st : MatchState) (evs : List Event) : MatchState :=
  evs.foldl stepPoint st

/-! ## Observation projections

Tuple-valued projections of `MatchState` used to track which parts of
the state each phase of point processing can touch.  All lemmas are
phrased as rewrites `obs (helper st) = ... obs st ...` so proofs about
composite operations never unfold the state record. -/

/-- Match-level point-ownership observation:
`((pointsWon p1, pointsPlayed p1), (pointsWon p2, pointsPlayed p2), |log|)`. -/
def ownObs (st : MatchState) : (Nat × Nat) × (Nat × Nat) × Nat :=
  ((st.match_stats_p1.points_won, st.match_stats_p1.points_played),
   (st.match_stats_p2.points_won, st.match_stats_p2.points_played),
   st.log_entries.length)

/-- Everything except the stats aggregates, the log and the serve-type
scratch field: the score-machine part of the state. -/
def scoreObs (st : MatchState) :=
  (st.format, st.best_of_sets, st.sets_to_win, st.sets, st.current_set_index,
   st.game_points_p1, st.game_points_p2, st.in_set_tiebreak, st.in_match_tiebreak10,
   st.tb_points_p1, st.tb_points_p2, st.sets_won_p1, st.sets_won_p2)

/-- The stats aggregates and the log: the part `give_point_regular` /
`give_point_tiebreak` never touch (per-set stats lists are only ever
extended with zero entries there, observed via `getD` below). -/
def statsLogObs (st : MatchState) :=
  (st.match_stats_p1, st.match_stats_p2, st.log_entries)

/-- The five return-statistics counters of one `PlayerStats`. -/
def retStats (s : PlayerStats) : Nat × Nat × Nat × Nat × Nat :=
  (s.return_winners, s.return_unforced_errors, s.return_forced_errors,
   s.return_points_won_vs_first, s.return_points_won_vs_second)

/-- Return statistics of both players at match level. -/
def retMatchObs (st : MatchState) :=
  (retStats st.match_stats_p1, retStats st.match_stats_p2)

/-- Return statistics of both players in the stats entry of set `i`. -/
def retSetObs (st : MatchState) (i : Nat) :=
  (retStats (st.per_set_stats_p1.getD i PlayerStats.init),
   retStats (st.per_set_stats_p2.getD i PlayerStats.init))

/-- `pointsWon` / `pointsPlayed` of both players in the stats entry of
set `i`. -/
def psOwnObs (st : MatchState) (i : Nat) : (Nat × Nat) × (Nat × Nat) :=
  (((st.per_set_stats_p1.getD i PlayerStats.init).points_won,
    (st.per_set_stats_p1.getD i PlayerStats.init).points_played),
   ((st.per_set_stats_p2.getD i PlayerStats.init).points_won,
    (st.per_set_stats_p2.getD i PlayerStats.init).points_played))

theorem updAt_of_length_le (l : List α) (n : Nat) (f : α → α) (h : l.length ≤ n) :
    updAt l n f = l := by
  induction l generalizing n with
  | nil => simp
  | cons a l ih =>
    cases n with
    | zero => simp at h
    | succ m => simp only [updAt_cons_succ, List.cons.injEq, true_and]
                exact ih m (by simpa using h)

theorem getD_append_default (l : List α) (i : Nat) (d : α) :
    (l ++ [d]).getD i d = l.getD i d := by
  induction l generalizing i with
  | nil => cases i with
    | zero => simp [List.getD]
    | succ j => simp [List.getD]
  | cons a l ih =>
    cases i with
    | zero => simp [List.getD]
    | succ j => simpa [List.getD] using ih j

theorem getD_updAt_of_proj (l : List α) (n i : Nat) (f : α → α) (d : α)
    (g : α → β) (hf : ∀ s, g (f s) = g s) :
    g ((updAt l n f).getD i d) = g (l.getD i d) := by
  rcases Nat.lt_or_ge n l.length with h | h
  · rcases eq_or_ne i n with rfl | hne
    · rw [getD_updAt_self l i f d h, hf]
    · rw [getD_updAt_ne l n i f d hne]
  · rw [updAt_of_length_le l n f h]

/-! ### Generic lemmas for the two-level stats update combinators -/

theorem scoreObs_updPlayerMatch (st : MatchState) (p : Nat) (f : PlayerStats → PlayerStats) :
    scoreObs (updPlayerMatch st p f) = scoreObs st := by
  unfold updPlayerMatch; split <;> rfl

theorem scoreObs_updPlayerSet (st : MatchState) (p : Nat) (f : PlayerStats → PlayerStats) :
    scoreObs (updPlayerSet st p f) = scoreObs st := by
  unfold updPlayerSet; split <;> rfl

theorem scoreObs_updPlayerBoth (st : MatchState) (p : Nat) (f : PlayerStats → PlayerStats) :
    scoreObs (updPlayerBoth st p f) = scoreObs st := by
  unfold updPlayerBoth; rw [scoreObs_updPlayerSet, scoreObs_updPlayerMatch]

theorem ownObs_updPlayerSet (st : MatchState) (p : Nat) (f : PlayerStats → PlayerStats) :
    ownObs (updPlayerSet st p f) = ownObs st := by
  unfold updPlayerSet; split <;> rfl

theorem ownObs_updPlayerMatch (st : MatchState) (p : Nat) (f : PlayerStats → PlayerStats)
    (h1 : ∀ s, (f s).points_won = s.points_won)
    (h2 : ∀ s, (f s).points_played = s.points_played) :
    ownObs (updPlayerMatch st p f) = ownObs st := by
  unfold updPlayerMatch ownObs; split <;> simp [h1, h2]

theorem ownObs_updPlayerBoth (st : MatchState) (p : Nat) (f : PlayerStats → PlayerStats)
    (h1 : ∀ s, (f s).points_won = s.points_won)
    (h2 : ∀ s, (f s).points_played = s.points_played) :
    ownObs (updPlayerBoth st p f) = ownObs st := by
  unfold updPlayerBoth; rw [ownObs_updPlayerSet, ownObs_updPlayerMatch st p f h1 h2]

theorem psOwnObs_updPlayerMatch (st : MatchState) (p : Nat) (f : PlayerStats → PlayerStats)
    (i : Nat) : psOwnObs (updPlayerMatch st p f) i = psOwnObs st i := by
  unfold updPlayerMatch; split <;> rfl

theorem psOwnObs_updPlayerSet (st : MatchState) (p : Nat) (f : PlayerStats → PlayerStats)
    (i : Nat)
    (h1 : ∀ s, (f s).points_won = s.points_won)
    (h2 : ∀ s, (f s).points_played = s.points_played) :
    psOwnObs (updPlayerSet st p f) i = psOwnObs st i := by
  unfold updPlayerSet psOwnObs
  split <;> dsimp only <;>
    rw [getD_updAt_of_proj _ _ _ _ _ PlayerStats.points_won h1,
        getD_updAt_of_proj _ _ _ _ _ PlayerStats.points_played h2]

theorem psOwnObs_updPlayerBoth (st : MatchState) (p : Nat) (f : PlayerStats → PlayerStats)
    (i : Nat)
    (h1 : ∀ s, (f s).points_won = s.points_won)
    (h2 : ∀ s, (f s).points_played = s.points_played) :
    psOwnObs (updPlayerBoth st p f) i = psOwnObs st i := by
  unfold updPlayerBoth
  rw [psOwnObs_updPlayerSet _ p f i h1 h2, psOwnObs_updPlayerMatch]

theorem retMatchObs_updPlayerSet (st : MatchState) (p : Nat) (f : PlayerStats → PlayerStats) :
    retMatchObs (updPlayerSet st p f) = retMatchObs st := by
  unfold updPlayerSet; split <;> rfl

theorem retMatchObs_updPlayerMatch (st : MatchState) (p : Nat) (f : PlayerStats → PlayerStats)
    (h : ∀ s, retStats (f s) = retStats s) :
    retMatchObs (updPlayerMatch st p f) = retMatchObs st := by
  unfold updPlayerMatch retMatchObs; split <;> simp [h]

theorem retMatchObs_updPlayerBoth (st : MatchState) (p : Nat) (f : PlayerStats → PlayerStats)
    (h : ∀ s, retStats (f s) = retStats s) :
    retMatchObs (updPlayerBoth st p f) = retMatchObs st := by
  unfold updPlayerBoth; rw [retMatchObs_updPlayerSet, retMatchObs_updPlayerMatch st p f h]

theorem retSetObs_updPlayerMatch (st : MatchState) (p : Nat) (f : PlayerStats → PlayerStats)
    (i : Nat) : retSetObs (updPlayerMatch st p f) i = retSetObs st i := by
  unfold updPlayerMatch; split <;> rfl

theorem retSetObs_updPlayerSet (st : MatchState) (p : Nat) (f : PlayerStats → PlayerStats)
    (i : Nat) (h : ∀ s, retStats (f s) = retStats s) :
    retSetObs (updPlayerSet st p f) i = retSetObs st i := by
  unfold updPlayerSet retSetObs
  split <;> dsimp only <;> rw [getD_updAt_of_proj _ _ _ _ _ retStats h]

theorem retSetObs_updPlayerBoth (st : MatchState) (p : Nat) (f : PlayerStats → PlayerStats)
    (i : Nat) (h : ∀ s, retStats (f s) = retStats s) :
    retSetObs (updPlayerBoth st p f) i = retSetObs st i := by
  unfold updPlayerBoth
  rw [retSetObs_updPlayerSet _ p f i h, retSetObs_updPlayerMatch]

/-! ### Per-helper observation lemmas -/

theorem scoreObs_set_cps (st : MatchState) (t : ServeType) :
    scoreObs (set_current_point_serve st t) = scoreObs st := rfl

theorem ownObs_set_cps (st : MatchState) (t : ServeType) :
    ownObs (set_current_point_serve st t) = ownObs st := rfl

theorem psOwnObs_set_cps (st : MatchState) (t : ServeType) (i : Nat) :
    psOwnObs (set_current_point_serve st t) i = psOwnObs st i := rfl

theorem retMatchObs_set_cps (st : MatchState) (t : ServeType) :
    retMatchObs (set_current_point_serve st t) = retMatchObs st := rfl

theorem retSetObs_set_cps (st : MatchState) (t : ServeType) (i : Nat) :
    retSetObs (set_current_point_serve st t) i = retSetObs st i := rfl

theorem scoreObs_add_serve_attempt (st : MatchState) (p : Nat) (t : ServeType) (b : Bool) :
    scoreObs (add_serve_attempt st p t b) = scoreObs st := by
  unfold add_serve_attempt; exact scoreObs_updPlayerBoth ..

theorem ownObs_add_serve_attempt (st : MatchState) (p : Nat) (t : ServeType) (b : Bool) :
    ownObs (add_serve_attempt st p t b) = ownObs st := by
  unfold add_serve_attempt
  exact ownObs_updPlayerBoth _ _ _
    (by intro s; cases t <;> dsimp only <;> (try split) <;> rfl)
    (by intro s; cases t <;> dsimp only <;> (try split) <;> rfl)

theorem psOwnObs_add_serve_attempt (st : MatchState) (p : Nat) (t : ServeType) (b : Bool)
    (i : Nat) : psOwnObs (add_serve_attempt st p t b) i = psOwnObs st i := by
  unfold add_serve_attempt
  exact psOwnObs_updPlayerBoth _ _ _ _
    (by intro s; cases t <;> dsimp only <;> (try split) <;> rfl)
    (by intro s; cases t <;> dsimp only <;> (try split) <;> rfl)

theorem retMatchObs_add_serve_attempt (st : MatchState) (p : Nat) (t : ServeType) (b : Bool) :
    retMatchObs (add_serve_attempt st p t b) = retMatchObs st := by
  unfold add_serve_attempt
  exact retMatchObs_updPlayerBoth _ _ _
    (by intro s; cases t <;> dsimp only <;> (try split) <;> rfl)

theorem retSetObs_add_serve_attempt (st : MatchState) (p : Nat) (t : ServeType) (b : Bool)
    (i : Nat) : retSetObs (add_serve_attempt st p t b) i = retSetObs st i := by
  unfold add_serve_attempt
  exact retSetObs_updPlayerBoth _ _ _ _
    (by intro s; cases t <;> dsimp only <;> (try split) <;> rfl)

theorem scoreObs_add_double_fault (st : MatchState) (p : Nat) :
    scoreObs (add_double_fault st p) = scoreObs st := by
  unfold add_double_fault; exact scoreObs_updPlayerBoth ..

theorem ownObs_add_double_fault (st : MatchState) (p : Nat) :
    ownObs (add_double_fault st p) = ownObs st := by
  unfold add_double_fault
  exact ownObs_updPlayerBoth _ _ _ (fun s => rfl) (fun s => rfl)

theorem psOwnObs_add_double_fault (st : MatchState) (p : Nat) (i : Nat) :
    psOwnObs (add_double_fault st p) i = psOwnObs st i := by
  unfold add_double_fault
  exact psOwnObs_updPlayerBoth _ _ _ _ (fun s => rfl) (fun s => rfl)

theorem retMatchObs_add_double_fault (st : MatchState) (p : Nat) :
    retMatchObs (add_double_fault st p) = retMatchObs st := by
  unfold add_double_fault
  exact retMatchObs_updPlayerBoth _ _ _ (fun s => rfl)

theorem retSetObs_add_double_fault (st : MatchState) (p : Nat) (i : Nat) :
    retSetObs (add_double_fault st p) i = retSetObs st i := by
  unfold add_double_fault
  exact retSetObs_updPlayerBoth _ _ _ _ (fun s => rfl)

theorem scoreObs_add_ace (st : MatchState) (p : Nat) (t : ServeType) :
    scoreObs (add_ace st p t) = scoreObs st := by
  unfold add_ace; exact scoreObs_updPlayerBoth ..

theorem ownObs_add_ace (st : MatchState) (p : Nat) (t : ServeType) :
    ownObs (add_ace st p t) = ownObs st := by
  unfold add_ace
  exact ownObs_updPlayerBoth _ _ _
    (by intro s; cases t <;> rfl) (by intro s; cases t <;> rfl)

theorem psOwnObs_add_ace (st : MatchState) (p : Nat) (t : ServeType) (i : Nat) :
    psOwnObs (add_ace st p t) i = psOwnObs st i := by
  unfold add_ace
  exact psOwnObs_updPlayerBoth _ _ _ _
    (by intro s; cases t <;> rfl) (by intro s; cases t <;> rfl)

theorem scoreObs_add_service_winner (st : MatchState) (p : Nat) (t : ServeType) :
    scoreObs (add_service_winner st p t) = scoreObs st := by
  unfold add_service_winner; exact scoreObs_updPlayerBoth ..

theorem ownObs_add_service_winner (st : MatchState) (p : Nat) (t : ServeType) :
    ownObs (add_service_winner st p t) = ownObs st := by
  unfold add_service_winner
  exact ownObs_updPlayerBoth _ _ _
    (by intro s; cases t <;> rfl) (by intro s; cases t <;> rfl)

theorem psOwnObs_add_service_winner (st : MatchState) (p : Nat) (t : ServeType) (i : Nat) :
    psOwnObs (add_service_winner st p t) i = psOwnObs st i := by
  unfold add_service_winner
  exact psOwnObs_updPlayerBoth _ _ _ _
    (by intro s; cases t <;> rfl) (by intro s; cases t <;> rfl)

theorem scoreObs_add_return_outcome (st : MatchState) (p : Nat) (k : ReturnKind) :
    scoreObs (add_return_outcome st p k) = scoreObs st := by
  unfold add_return_outcome; exact scoreObs_updPlayerBoth ..

theorem ownObs_add_return_outcome (st : MatchState) (p : Nat) (k : ReturnKind) :
    ownObs (add_return_outcome st p k) = ownObs st := by
  unfold add_return_outcome
  exact ownObs_updPlayerBoth _ _ _
    (by intro s; cases k <;> rfl) (by intro s; cases k <;> rfl)

theorem psOwnObs_add_return_outcome (st : MatchState) (p : Nat) (k : ReturnKind) (i : Nat) :
    psOwnObs (add_return_outcome st p k) i = psOwnObs st i := by
  unfold add_return_outcome
  exact psOwnObs_updPlayerBoth _ _ _ _
    (by intro s; cases k <;> rfl) (by intro s; cases k <;> rfl)

theorem scoreObs_add_rally_outcome (st : MatchState) (p : Nat) (k : RallyKind) :
    scoreObs (add_rally_outcome st p k) = scoreObs st := by
  unfold add_rally_outcome; exact scoreObs_updPlayerBoth ..

theorem ownObs_add_rally_outcome (st : MatchState) (p : Nat) (k : RallyKind) :
    ownObs (add_rally_outcome st p k) = ownObs st := by
  unfold add_rally_outcome
  exact ownObs_updPlayerBoth _ _ _
    (by intro s; cases k <;> rfl) (by intro s; cases k <;> rfl)

theorem psOwnObs_add_rally_outcome (st : MatchState) (p : Nat) (k : RallyKind) (i : Nat) :
    psOwnObs (add_rally_outcome st p k) i = psOwnObs st i := by
  unfold add_rally_outcome
  exact psOwnObs_updPlayerBoth _ _ _ _
    (by intro s; cases k <;> rfl) (by intro s; cases k <;> rfl)

theorem scoreObs_add_return_points_won (st : MatchState) (p : Nat) (t : ServeType) :
    scoreObs (add_return_points_won st p t) = scoreObs st := by
  unfold add_return_points_won; exact scoreObs_updPlayerBoth ..

theorem ownObs_add_return_points_won (st : MatchState) (p : Nat) (t : ServeType) :
    ownObs (add_return_points_won st p t) = ownObs st := by
  unfold add_return_points_won
  exact ownObs_updPlayerBoth _ _ _
    (by intro s; cases t <;> rfl) (by intro s; cases t <;> rfl)

theorem psOwnObs_add_return_points_won (st : MatchState) (p : Nat) (t : ServeType) (i : Nat) :
    psOwnObs (add_return_points_won st p t) i = psOwnObs st i := by
  unfold add_return_points_won
  exact psOwnObs_updPlayerBoth _ _ _ _
    (by intro s; cases t <;> rfl) (by intro s; cases t <;> rfl)

theorem scoreObs_add_server_point_won (st : MatchState) (p : Nat) (t : ServeType) :
    scoreObs (add_server_point_won st p t) = scoreObs st := by
  unfold add_server_point_won; exact scoreObs_updPlayerBoth ..

theorem ownObs_add_server_point_won (st : MatchState) (p : Nat) (t : ServeType) :
    ownObs (add_server_point_won st p t) = ownObs st := by
  unfold add_server_point_won
  exact ownObs_updPlayerBoth _ _ _
    (by intro s; cases t <;> rfl) (by intro s; cases t <;> rfl)

theorem psOwnObs_add_server_point_won (st : MatchState) (p : Nat) (t : ServeType) (i : Nat) :
    psOwnObs (add_server_point_won st p t) i = psOwnObs st i := by
  unfold add_server_point_won
  exact psOwnObs_updPlayerBoth _ _ _ _
    (by intro s; cases t <;> rfl) (by intro s; cases t <;> rfl)

theorem retMatchObs_add_server_point_won (st : MatchState) (p : Nat) (t : ServeType) :
    retMatchObs (add_server_point_won st p t) = retMatchObs st := by
  unfold add_server_point_won
  exact retMatchObs_updPlayerBoth _ _ _ (by intro s; cases t <;> rfl)

theorem retSetObs_add_server_point_won (st : MatchState) (p : Nat) (t : ServeType) (i : Nat) :
    retSetObs (add_server_point_won st p t) i = retSetObs st i := by
  unfold add_server_point_won
  exact retSetObs_updPlayerBoth _ _ _ _ (by intro s; cases t <;> rfl)

theorem scoreObs_maybe_count_break_point (st : MatchState) (b1 b2 : Bool) :
    scoreObs (maybe_count_break_point st b1 b2) = scoreObs st := by
  unfold maybe_count_break_point
  split
  · rfl
  · exact scoreObs_updPlayerBoth ..

theorem ownObs_maybe_count_break_point (st : MatchState) (b1 b2 : Bool) :
    ownObs (maybe_count_break_point st b1 b2) = ownObs st := by
  unfold maybe_count_break_point
  split
  · rfl
  · exact ownObs_updPlayerBoth _ _ _
      (by intro s; dsimp only; split <;> rfl)
      (by intro s; dsimp only; split <;> rfl)

theorem psOwnObs_maybe_count_break_point (st : MatchState) (b1 b2 : Bool) (i : Nat) :
    psOwnObs (maybe_count_break_point st b1 b2) i = psOwnObs st i := by
  unfold maybe_count_break_point
  split
  · rfl
  · exact psOwnObs_updPlayerBoth _ _ _ _
      (by intro s; dsimp only; split <;> rfl)
      (by intro s; dsimp only; split <;> rfl)

theorem retMatchObs_maybe_count_break_point (st : MatchState) (b1 b2 : Bool) :
    retMatchObs (maybe_count_break_point st b1 b2) = retMatchObs st := by
  unfold maybe_count_break_point
  split
  · rfl
  · exact retMatchObs_updPlayerBoth _ _ _
      (by intro s; dsimp only; split <;> rfl)

theorem retSetObs_maybe_count_break_point (st : MatchState) (b1 b2 : Bool) (i : Nat) :
    retSetObs (maybe_count_break_point st b1 b2) i = retSetObs st i := by
  unfold maybe_count_break_point
  split
  · rfl
  · exact retSetObs_updPlayerBoth _ _ _ _
      (by intro s; dsimp only; split <;> rfl)

theorem add_stats_net_points_won (s : PlayerStats) (b : Bool) :
    (add_stats_net s b).points_won = s.points_won := by
  unfold add_stats_net; dsimp only; split <;> rfl

theorem add_stats_net_points_played (s : PlayerStats) (b : Bool) :
    (add_stats_net s b).points_played = s.points_played := by
  unfold add_stats_net; dsimp only; split <;> rfl

theorem scoreObs_apply_net_mark (st : MatchState) (np w : Nat) :
    scoreObs (apply_net_mark st np w) = scoreObs st := by
  unfold apply_net_mark; exact scoreObs_updPlayerBoth ..

theorem ownObs_apply_net_mark (st : MatchState) (np w : Nat) :
    ownObs (apply_net_mark st np w) = ownObs st := by
  unfold apply_net_mark
  exact ownObs_updPlayerBoth _ _ _
    (fun s => add_stats_net_points_won s _)
    (fun s => add_stats_net_points_played s _)

theorem psOwnObs_apply_net_mark (st : MatchState) (np w : Nat) (i : Nat) :
    psOwnObs (apply_net_mark st np w) i = psOwnObs st i := by
  unfold apply_net_mark
  exact psOwnObs_updPlayerBoth _ _ _ _
    (fun s => add_stats_net_points_won s _)
    (fun s => add_stats_net_points_played s _)

theorem scoreObs_apply_point_ownership (st : MatchState) (w l : Nat) :
    scoreObs (apply_point_ownership st w l) = scoreObs st := by
  unfold apply_point_ownership
  rw [scoreObs_updPlayerMatch, scoreObs_updPlayerMatch]

theorem psOwnObs_apply_point_ownership (st : MatchState) (w l : Nat) (i : Nat) :
    psOwnObs (apply_point_ownership st w l) i = psOwnObs st i := by
  unfold apply_point_ownership
  rw [psOwnObs_updPlayerMatch, psOwnObs_updPlayerMatch]

theorem retMatchObs_apply_point_ownership (st : MatchState) (w l : Nat) :
    retMatchObs (apply_point_ownership st w l) = retMatchObs st := by
  unfold apply_point_ownership
  rw [retMatchObs_updPlayerMatch, retMatchObs_updPlayerMatch] <;> exact fun s => rfl

theorem retSetObs_apply_point_ownership (st : MatchState) (w l : Nat) (i : Nat) :
    retSetObs (apply_point_ownership st w l) i = retSetObs st i := by
  unfold apply_point_ownership
  rw [retSetObs_updPlayerMatch, retSetObs_updPlayerMatch]

/-- Effect of `add_stats_point_ownership` on the match-level ownership
observation when the loser reference is the winner's opposite slot. -/
theorem ownObs_apply_point_ownership_right (st : MatchState) (w : Nat) :
    ownObs (apply_point_ownership st w (otherPlayer w)) =
      (((ownObs st).1.1 + (if w = 0 then 1 else 0), (ownObs st).1.2 + 1),
       ((ownObs st).2.1.1 + (if w = 0 then 0 else 1), (ownObs st).2.1.2 + 1),
       (ownObs st).2.2) := by
  unfold apply_point_ownership updPlayerMatch otherPlayer ownObs
  by_cases hw : w = 0 <;> simp [hw]

/-- Same, with the winner reference the loser's opposite slot. -/
theorem ownObs_apply_point_ownership_left (st : MatchState) (l : Nat) :
    ownObs (apply_point_ownership st (otherPlayer l) l) =
      (((ownObs st).1.1 + (if l = 0 then 0 else 1), (ownObs st).1.2 + 1),
       ((ownObs st).2.1.1 + (if l = 0 then 1 else 0), (ownObs st).2.1.2 + 1),
       (ownObs st).2.2) := by
  unfold apply_point_ownership updPlayerMatch otherPlayer ownObs
  by_cases hl : l = 0 <;> simp [hl]

theorem scoreObs_push_log (st : MatchState) (e : PointLogEntry) :
    scoreObs (push_log st e) = scoreObs st := rfl

theorem ownObs_push_log (st : MatchState) (e : PointLogEntry) :
    ownObs (push_log st e) =
      ((ownObs st).1, (ownObs st).2.1, (ownObs st).2.2 + 1) := by
  unfold ownObs push_log; simp

theorem psOwnObs_push_log (st : MatchState) (e : PointLogEntry) (i : Nat) :
    psOwnObs (push_log st e) i = psOwnObs st i := rfl

theorem retMatchObs_push_log (st : MatchState) (e : PointLogEntry) :
    retMatchObs (push_log st e) = retMatchObs st := rfl

theorem retSetObs_push_log (st : MatchState) (e : PointLogEntry) (i : Nat) :
    retSetObs (push_log st e) i = retSetObs st i := rfl

theorem scoreObs_compute_tb_server (st : MatchState) :
    scoreObs (compute_tiebreak_server st) = scoreObs st := by
  simp only [compute_tiebreak_server]; split <;> rfl

theorem ownObs_compute_tb_server (st : MatchState) :
    ownObs (compute_tiebreak_server st) = ownObs st := by
  simp only [compute_tiebreak_server]; split <;> rfl

theorem psOwnObs_compute_tb_server (st : MatchState) (i : Nat) :
    psOwnObs (compute_tiebreak_server st) i = psOwnObs st i := by
  simp only [compute_tiebreak_server]; split <;> rfl

theorem retMatchObs_compute_tb_server (st : MatchState) :
    retMatchObs (compute_tiebreak_server st) = retMatchObs st := by
  simp only [compute_tiebreak_server]; split <;> rfl

theorem retSetObs_compute_tb_server (st : MatchState) (i : Nat) :
    retSetObs (compute_tiebreak_server st) i = retSetObs st i := by
  simp only [compute_tiebreak_server]; split <;> rfl

/-! ### The score phase never touches the stats aggregates or the log

`give_point_regular` / `give_point_tiebreak` (and everything they call)
leave both match-level stats records, the log, and every per-set stats
entry unchanged (per-set lists are only extended with zero entries). -/

/-- Both match stats records, the log, and the per-set stats entries at
index `i`. -/
def aggObs (st : MatchState) (i : Nat) :=
  (st.match_stats_p1, st.match_stats_p2, st.log_entries,
   st.per_set_stats_p1.getD i PlayerStats.init,
   st.per_set_stats_p2.getD i PlayerStats.init)

theorem aggObs_bump_game_point (st : MatchState) (w i : Nat) :
    aggObs (bump_game_point st w) i = aggObs st i := by
  unfold bump_game_point; split <;> rfl

theorem aggObs_award_game (st : MatchState) (p i : Nat) :
    aggObs (award_game st p) i = aggObs st i := rfl

theorem aggObs_enter_set_tiebreak (st : MatchState) (i : Nat) :
    aggObs (enter_set_tiebreak st) i = aggObs st i := rfl

theorem aggObs_start_new_set (st : MatchState) (i : Nat) :
    aggObs (start_new_set st) i = aggObs st i := by
  simp only [aggObs, start_new_set, getD_append_default]

theorem aggObs_close_set (st : MatchState) (w i : Nat) :
    aggObs (close_set_and_prepare_next st w) i = aggObs st i := by
  simp only [close_set_and_prepare_next]
  repeat' split
  all_goals (try rw [aggObs_start_new_set])
  all_goals rfl

theorem aggObs_after_game_award (st : MatchState) (i : Nat) :
    aggObs (after_game_award st) i = aggObs st i := by
  simp only [after_game_award]
  repeat' split
  all_goals (try rw [aggObs_close_set])
  all_goals rfl

theorem aggObs_give_point_regular (st : MatchState) (w i : Nat) :
    aggObs (give_point_regular st w) i = aggObs st i := by
  simp only [give_point_regular]
  repeat' split
  all_goals (try rw [aggObs_after_game_award, aggObs_award_game])
  all_goals rw [aggObs_bump_game_point]

theorem aggObs_give_point_tiebreak (st : MatchState) (w : Nat) (b : Bool) (i : Nat) :
    aggObs (give_point_tiebreak st w b) i = aggObs st i := by
  simp only [give_point_tiebreak]
  repeat' split
  all_goals (try rw [aggObs_close_set])
  all_goals simp only [aggObs, getD_append_default]

theorem aggObs_finish_point (st : MatchState) (w i : Nat) :
    aggObs (finish_point st w) i = aggObs st i := by
  simp only [finish_point]
  repeat' split
  · rw [aggObs_give_point_tiebreak]
  · rw [aggObs_give_point_tiebreak]
  · rw [aggObs_give_point_regular]

theorem ownObs_congr_aggObs {a b : MatchState} {i : Nat}
    (h : aggObs a i = aggObs b i) : ownObs a = ownObs b := by
  unfold aggObs at h
  simp only [Prod.mk.injEq] at h
  unfold ownObs
  rw [h.1, h.2.1, h.2.2.1]

theorem psOwnObs_congr_aggObs {a b : MatchState} {i : Nat}
    (h : aggObs a i = aggObs b i) : psOwnObs a i = psOwnObs b i := by
  unfold aggObs at h
  simp only [Prod.mk.injEq] at h
  unfold psOwnObs
  rw [h.2.2.2.1, h.2.2.2.2]

theorem retMatchObs_congr_aggObs {a b : MatchState} {i : Nat}
    (h : aggObs a i = aggObs b i) : retMatchObs a = retMatchObs b := by
  unfold aggObs at h
  simp only [Prod.mk.injEq] at h
  unfold retMatchObs
  rw [h.1, h.2.1]

theorem retSetObs_congr_aggObs {a b : MatchState} {i : Nat}
    (h : aggObs a i = aggObs b i) : retSetObs a i = retSetObs b i := by
  unfold aggObs at h
  simp only [Prod.mk.injEq] at h
  unfold retSetObs
  rw [h.2.2.2.1, h.2.2.2.2]

/-! ### The stats phase: effect of one point event -/

/-- Every completed point event credits `points_won` to its winner's
match-level stats, `points_played` to both match-level stats, and
appends exactly one log entry; nothing else in the ownership
observation changes. -/
theorem ownObs_apply_event_stats (st : MatchState) (wbp : Bool) (e0 : PointLogEntry)
    (ev : Event) :
    ownObs (apply_event_stats st wbp e0 ev) =
      (((ownObs st).1.1 + (if point_winner_of st ev = 0 then 1 else 0),
        (ownObs st).1.2 + 1),
       ((ownObs st).2.1.1 + (if point_winner_of st ev = 0 then 0 else 1),
        (ownObs st).2.1.2 + 1),
       (ownObs st).2.2 + 1) := by
  cases ev with
  | serveIn sk k =>
    cases sk <;> rcases k with _ | _ | _ | ⟨rv, _ | np⟩ <;> (try cases rv) <;>
      simp only [apply_event_stats, point_winner_of, Bool.false_eq_true, if_false,
        if_true, ite_true, ite_false,
        ownObs_set_cps, ownObs_add_serve_attempt, ownObs_add_ace,
        ownObs_add_service_winner, ownObs_add_double_fault, ownObs_add_return_outcome,
        ownObs_add_rally_outcome, ownObs_add_return_points_won,
        ownObs_add_server_point_won, ownObs_maybe_count_break_point,
        ownObs_apply_net_mark, ownObs_apply_point_ownership_right,
        ownObs_apply_point_ownership_left, ownObs_push_log] <;>
      (try (by_cases hs : st.current_server = 0 <;> simp [otherPlayer, hs]))
  | doubleFault b =>
    cases b <;>
      simp only [apply_event_stats, point_winner_of, Bool.false_eq_true, if_false,
        if_true, ite_true, ite_false,
        ownObs_set_cps, ownObs_add_serve_attempt, ownObs_add_double_fault,
        ownObs_maybe_count_break_point, ownObs_apply_point_ownership_left,
        ownObs_push_log] <;>
      (try (by_cases hs : st.current_server = 0 <;> simp [otherPlayer, hs]))
  | aceFirst =>
    simp only [apply_event_stats, point_winner_of, ownObs_set_cps,
      ownObs_add_serve_attempt, ownObs_add_ace, ownObs_add_server_point_won,
      ownObs_maybe_count_break_point, ownObs_apply_point_ownership_right,
      ownObs_push_log]
  | aceSecond =>
    simp only [apply_event_stats, point_winner_of, ownObs_set_cps,
      ownObs_add_serve_attempt, ownObs_add_ace, ownObs_add_server_point_won,
      ownObs_maybe_count_break_point, ownObs_apply_point_ownership_right,
      ownObs_push_log]
  | serviceWinnerFirst =>
    simp only [apply_event_stats, point_winner_of, ownObs_set_cps,
      ownObs_add_serve_attempt, ownObs_add_service_winner, ownObs_add_server_point_won,
      ownObs_maybe_count_break_point, ownObs_apply_point_ownership_right,
      ownObs_push_log]
  | serviceWinnerSecond =>
    simp only [apply_event_stats, point_winner_of, ownObs_set_cps,
      ownObs_add_serve_attempt, ownObs_add_service_winner, ownObs_add_server_point_won,
      ownObs_maybe_count_break_point, ownObs_apply_point_ownership_right,
      ownObs_push_log]

/-- No point event ever touches `points_won` / `points_played` of any
per-set stats entry. -/
theorem psOwnObs_apply_event_stats (st : MatchState) (wbp : Bool) (e0 : PointLogEntry)
    (ev : Event) (i : Nat) :
    psOwnObs (apply_event_stats st wbp e0 ev) i = psOwnObs st i := by
  cases ev with
  | serveIn sk k =>
    cases sk <;> rcases k with _ | _ | _ | ⟨rv, _ | np⟩ <;> (try cases rv) <;>
      simp only [apply_event_stats, Bool.false_eq_true, if_false, if_true,
        ite_true, ite_false,
        psOwnObs_set_cps, psOwnObs_add_serve_attempt, psOwnObs_add_ace,
        psOwnObs_add_service_winner, psOwnObs_add_double_fault,
        psOwnObs_add_return_outcome, psOwnObs_add_rally_outcome,
        psOwnObs_add_return_points_won, psOwnObs_add_server_point_won,
        psOwnObs_maybe_count_break_point, psOwnObs_apply_net_mark,
        psOwnObs_apply_point_ownership, psOwnObs_push_log]
  | doubleFault b =>
    cases b <;>
      simp only [apply_event_stats, Bool.false_eq_true, if_false, if_true,
        ite_true, ite_false,
        psOwnObs_set_cps, psOwnObs_add_serve_attempt, psOwnObs_add_double_fault,
        psOwnObs_maybe_count_break_point, psOwnObs_apply_point_ownership,
        psOwnObs_push_log]
  | aceFirst =>
    simp only [apply_event_stats, psOwnObs_set_cps, psOwnObs_add_serve_attempt,
      psOwnObs_add_ace, psOwnObs_add_server_point_won,
      psOwnObs_maybe_count_break_point, psOwnObs_apply_point_ownership,
      psOwnObs_push_log]
  | aceSecond =>
    simp only [apply_event_stats, psOwnObs_set_cps, psOwnObs_add_serve_attempt,
      psOwnObs_add_ace, psOwnObs_add_server_point_won,
      psOwnObs_maybe_count_break_point, psOwnObs_apply_point_ownership,
      psOwnObs_push_log]
  | serviceWinnerFirst =>
    simp only [apply_event_stats, psOwnObs_set_cps, psOwnObs_add_serve_attempt,
      psOwnObs_add_service_winner, psOwnObs_add_server_point_won,
      psOwnObs_maybe_count_break_point, psOwnObs_apply_point_ownership,
      psOwnObs_push_log]
  | serviceWinnerSecond =>
    simp only [apply_event_stats, psOwnObs_set_cps, psOwnObs_add_serve_attempt,
      psOwnObs_add_service_winner, psOwnObs_add_server_point_won,
      psOwnObs_maybe_count_break_point, psOwnObs_apply_point_ownership,
      psOwnObs_push_log]

/-- The stats phase never touches the score machine. -/
theorem scoreObs_apply_event_stats (st : MatchState) (wbp : Bool) (e0 : PointLogEntry)
    (ev : Event) :
    scoreObs (apply_event_stats st wbp e0 ev) = scoreObs st := by
  cases ev with
  | serveIn sk k =>
    cases sk <;> rcases k with _ | _ | _ | ⟨rv, _ | np⟩ <;> (try cases rv) <;>
      simp only [apply_event_stats, Bool.false_eq_true, if_false, if_true,
        ite_true, ite_false,
        scoreObs_set_cps, scoreObs_add_serve_attempt, scoreObs_add_ace,
        scoreObs_add_service_winner, scoreObs_add_double_fault,
        scoreObs_add_return_outcome, scoreObs_add_rally_outcome,
        scoreObs_add_return_points_won, scoreObs_add_server_point_won,
        scoreObs_maybe_count_break_point, scoreObs_apply_net_mark,
        scoreObs_apply_point_ownership, scoreObs_push_log]
  | doubleFault b =>
    cases b <;>
      simp only [apply_event_stats, Bool.false_eq_true, if_false, if_true,
        ite_true, ite_false,
        scoreObs_set_cps, scoreObs_add_serve_attempt, scoreObs_add_double_fault,
        scoreObs_maybe_count_break_point, scoreObs_apply_point_ownership,
        scoreObs_push_log]
  | aceFirst =>
    simp only [apply_event_stats, scoreObs_set_cps, scoreObs_add_serve_attempt,
      scoreObs_add_ace, scoreObs_add_server_point_won,
      scoreObs_maybe_count_break_point, scoreObs_apply_point_ownership,
      scoreObs_push_log]
  | aceSecond =>
    simp only [apply_event_stats, scoreObs_set_cps, scoreObs_add_serve_attempt,
      scoreObs_add_ace, scoreObs_add_server_point_won,
      scoreObs_maybe_count_break_point, scoreObs_apply_point_ownership,
      scoreObs_push_log]
  | serviceWinnerFirst =>
    simp only [apply_event_stats, scoreObs_set_cps, scoreObs_add_serve_attempt,
      scoreObs_add_service_winner, scoreObs_add_server_point_won,
      scoreObs_maybe_count_break_point, scoreObs_apply_point_ownership,
      scoreObs_push_log]
  | serviceWinnerSecond =>
    simp only [apply_event_stats, scoreObs_set_cps, scoreObs_add_serve_attempt,
      scoreObs_add_service_winner, scoreObs_add_server_point_won,
      scoreObs_maybe_count_break_point, scoreObs_apply_point_ownership,
      scoreObs_push_log]

/-- A double fault leaves every return-statistics counter (match level
and any per-set entry) of both players unchanged. -/
theorem retObs_apply_event_stats_df (st : MatchState) (wbp : Bool) (e0 : PointLogEntry)
    (b : Bool) (i : Nat) :
    retMatchObs (apply_event_stats st wbp e0 (.doubleFault b)) = retMatchObs st ∧
      retSetObs (apply_event_stats st wbp e0 (.doubleFault b)) i = retSetObs st i := by
  cases b <;>
    simp only [apply_event_stats, Bool.false_eq_true, if_false, if_true,
      ite_true, ite_false,
      retMatchObs_set_cps, retMatchObs_add_serve_attempt, retMatchObs_add_double_fault,
      retMatchObs_maybe_count_break_point, retMatchObs_apply_point_ownership,
      retMatchObs_push_log,
      retSetObs_set_cps, retSetObs_add_serve_attempt, retSetObs_add_double_fault,
      retSetObs_maybe_count_break_point, retSetObs_apply_point_ownership,
      retSetObs_push_log, and_self]

/-! ### Effect of one full `record_point_and_stats` call -/

theorem ownObs_pre_point_state (st : MatchState) :
    ownObs (pre_point_state st) = ownObs st := by
  unfold pre_point_state; split
  · exact ownObs_compute_tb_server st
  · rfl

theorem psOwnObs_pre_point_state (st : MatchState) (i : Nat) :
    psOwnObs (pre_point_state st) i = psOwnObs st i := by
  unfold pre_point_state; split
  · exact psOwnObs_compute_tb_server st i
  · rfl

theorem scoreObs_pre_point_state (st : MatchState) :
    scoreObs (pre_point_state st) = scoreObs st := by
  unfold pre_point_state; split
  · exact scoreObs_compute_tb_server st
  · rfl

theorem ownObs_record_point (st : MatchState) (ev : Event) :
    ownObs (record_point_and_stats st ev) =
      (((ownObs st).1.1 + (if point_winner_of (pre_point_state st) ev = 0 then 1 else 0),
        (ownObs st).1.2 + 1),
       ((ownObs st).2.1.1 + (if point_winner_of (pre_point_state st) ev = 0 then 0 else 1),
        (ownObs st).2.1.2 + 1),
       (ownObs st).2.2 + 1) := by
  simp only [record_point_and_stats]
  rw [ownObs_congr_aggObs (aggObs_finish_point _ _ 0), ownObs_apply_event_stats,
    ownObs_pre_point_state]

theorem psOwnObs_record_point (st : MatchState) (ev : Event) (i : Nat) :
    psOwnObs (record_point_and_stats st ev) i = psOwnObs st i := by
  simp only [record_point_and_stats]
  rw [psOwnObs_congr_aggObs (aggObs_finish_point _ _ i), psOwnObs_apply_event_stats,
    psOwnObs_pre_point_state]

theorem retObs_record_point_df (st : MatchState) (b : Bool) (i : Nat) :
    retMatchObs (record_point_and_stats st (.doubleFault b)) = retMatchObs st ∧
      retSetObs (record_point_and_stats st (.doubleFault b)) i = retSetObs st i := by
  have hm : retMatchObs (pre_point_state st) = retMatchObs st := by
    unfold pre_point_state; split
    · exact retMatchObs_compute_tb_server st
    · rfl
  have hs : retSetObs (pre_point_state st) i = retSetObs st i := by
    unfold pre_point_state; split
    · exact retSetObs_compute_tb_server st i
    · rfl
  have hdf := retObs_apply_event_stats_df (pre_point_state st)
  constructor
  · simp only [record_point_and_stats]
    rw [retMatchObs_congr_aggObs (aggObs_finish_point _ _ i)]
    rw [(hdf _ _ b i).1, hm]
  · simp only [record_point_and_stats]
    rw [retSetObs_congr_aggObs (aggObs_finish_point _ _ i)]
    rw [(hdf _ _ b i).2, hs]

/-- The ownership bookkeeping of one recorded point, with the
observation tuples unfolded to raw fields. -/
theorem record_point_ownership (st : MatchState) (ev : Event) :
    (record_point_and_stats st ev).log_entries.length = st.log_entries.length + 1 ∧
    (record_point_and_stats st ev).match_stats_p1.points_played =
      st.match_stats_p1.points_played + 1 ∧
    (record_point_and_stats st ev).match_stats_p2.points_played =
      st.match_stats_p2.points_played + 1 ∧
    (record_point_and_stats st ev).match_stats_p1.points_won =
      st.match_stats_p1.points_won +
        (if point_winner_of (pre_point_state st) ev = 0 then 1 else 0) ∧
    (record_point_and_stats st ev).match_stats_p2.points_won =
      st.match_stats_p2.points_won +
        (if point_winner_of (pre_point_state st) ev = 0 then 0 else 1) := by
  have h := ownObs_record_point st ev
  simp only [ownObs, Prod.mk.injEq] at h
  exact ⟨h.2.2, h.1.2, h.2.1.2, h.1.1, h.2.1.1⟩

/-! ## Claim theorems -/

/-- **C1**: for every sequence of valid point events applied from the
initial match state, the match-level stats satisfy
`pointsWon(p1) + pointsWon(p2) = |pointLog|` and
`pointsPlayed(p1) = pointsPlayed(p2) = |pointLog|`. -/
theorem points_won_played_match_invariant (sfirst fchoice : Nat) (evs : List Event) :
    (applyPoints (initState sfirst fchoice) evs).match_stats_p1.points_won +
        (applyPoints (initState sfirst fchoice) evs).match_stats_p2.points_won =
      (applyPoints (initState sfirst fchoice) evs).log_entries.length ∧
    (applyPoints (initState sfirst fchoice) evs).match_stats_p1.points_played =
      (applyPoints (initState sfirst fchoice) evs).log_entries.length ∧
    (applyPoints (initState sfirst fchoice) evs).match_stats_p2.points_played =
      (applyPoints (initState sfirst fchoice) evs).log_entries.length := by
  suffices h : ∀ st : MatchState,
      (st.match_stats_p1.points_won + st.match_stats_p2.points_won =
          st.log_entries.length ∧
        st.match_stats_p1.points_played = st.log_entries.length ∧
        st.match_stats_p2.points_played = st.log_entries.length) →
      ((applyPoints st evs).match_stats_p1.points_won +
          (applyPoints st evs).match_stats_p2.points_won =
        (applyPoints st evs).log_entries.length ∧
      (applyPoints st evs).match_stats_p1.points_played =
        (applyPoints st evs).log_entries.length ∧
      (applyPoints st evs).match_stats_p2.points_played =
        (applyPoints st evs).log_entries.length) by
    exact h _ ⟨rfl, rfl, rfl⟩
  induction evs with
  | nil => intro st h; exact h
  | cons e es ih =>
    intro st h
    have hfold : applyPoints st (e :: es) = applyPoints (stepPoint st e) es := rfl
    rw [hfold]
    apply ih
    unfold stepPoint
    split
    · exact h
    · obtain ⟨hl, hp1, hp2, hw1, hw2⟩ := record_point_ownership st e
      by_cases hw : point_winner_of (pre_point_state st) e = 0 <;>
        simp only [hw, if_true, if_false, ite_true, ite_false] at hw1 hw2 <;>
        omega

/-- **C4 counterexample**: a first-serve ace by player 1 from the
initial state increments the winner's match-level `points_won` (and
both match-level `points_played`), but the current set's per-set stats
entry keeps `points_won = points_played = 0` — the per-set pair is
*not* updated, contradicting the claim. -/
theorem per_set_point_ownership_not_updated :
    point_winner_of (pre_point_state (initState 1 1)) .aceFirst = 0 ∧
    (record_point_and_stats (initState 1 1) .aceFirst).current_set_index = 0 ∧
    (record_point_and_stats (initState 1 1) .aceFirst).match_stats_p1.points_won = 1 ∧
    (record_point_and_stats (initState 1 1) .aceFirst).match_stats_p1.points_played = 1 ∧
    (record_point_and_stats (initState 1 1) .aceFirst).match_stats_p2.points_played = 1 ∧
    ((record_point_and_stats (initState 1 1) .aceFirst).per_set_stats_p1.getD 0
        PlayerStats.init).points_won = 0 ∧
    ((record_point_and_stats (initState 1 1) .aceFirst).per_set_stats_p1.getD 0
        PlayerStats.init).points_played = 0 ∧
    ((record_point_and_stats (initState 1 1) .aceFirst).per_set_stats_p2.getD 0
        PlayerStats.init).points_played = 0 := by
  decide

/-- **C4 (amended)**: every processed point increments the winner's
`points_won` and both players' `points_played` by exactly one in the
match-level `PlayerStats` only; the `points_won` / `points_played`
counters of every per-set stats entry are left unchanged. -/
theorem point_ownership_match_level_only (st : MatchState) (ev : Event) :
    (if point_winner_of (pre_point_state st) ev = 0 then
      (record_point_and_stats st ev).match_stats_p1.points_won =
          st.match_stats_p1.points_won + 1 ∧
        (record_point_and_stats st ev).match_stats_p2.points_won =
          st.match_stats_p2.points_won
    else
      (record_point_and_stats st ev).match_stats_p2.points_won =
          st.match_stats_p2.points_won + 1 ∧
        (record_point_and_stats st ev).match_stats_p1.points_won =
          st.match_stats_p1.points_won) ∧
    (record_point_and_stats st ev).match_stats_p1.points_played =
      st.match_stats_p1.points_played + 1 ∧
    (record_point_and_stats st ev).match_stats_p2.points_played =
      st.match_stats_p2.points_played + 1 ∧
    ∀ i : Nat,
      ((record_point_and_stats st ev).per_set_stats_p1.getD i
          PlayerStats.init).points_won =
        (st.per_set_stats_p1.getD i PlayerStats.init).points_won ∧
      ((record_point_and_stats st ev).per_set_stats_p1.getD i
          PlayerStats.init).points_played =
        (st.per_set_stats_p1.getD i PlayerStats.init).points_played ∧
      ((record_point_and_stats st ev).per_set_stats_p2.getD i
          PlayerStats.init).points_won =
        (st.per_set_stats_p2.getD i PlayerStats.init).points_won ∧
      ((record_point_and_stats st ev).per_set_stats_p2.getD i
          PlayerStats.init).points_played =
        (st.per_set_stats_p2.getD i PlayerStats.init).points_played := by
  obtain ⟨hl, hp1, hp2, hw1, hw2⟩ := record_point_ownership st ev
  refine ⟨?_, hp1, hp2, ?_⟩
  · by_cases hw : point_winner_of (pre_point_state st) ev = 0 <;>
      simp only [hw, if_true, if_false, ite_true, ite_false] at hw1 hw2 ⊢ <;>
      exact ⟨by omega, by omega⟩
  · intro i
    have h := psOwnObs_record_point st ev i
    simp only [psOwnObs, Prod.mk.injEq] at h
    exact ⟨h.1.1, h.1.2, h.2.1, h.2.2⟩

/-- **C10**: a double-fault point event (entered directly or after a
first-serve fault) leaves the receiver's five return-statistics
counters unchanged, both in the match-level stats and in the stats
entry of the current set. -/
theorem double_fault_return_stats_frame (st : MatchState) (b : Bool) :
    retStats (if otherPlayer (pre_point_state st).current_server = 0 then
        (record_point_and_stats st (.doubleFault b)).match_stats_p1
      else (record_point_and_stats st (.doubleFault b)).match_stats_p2) =
      retStats (if otherPlayer (pre_point_state st).current_server = 0 then
          st.match_stats_p1
        else st.match_stats_p2) ∧
    retStats ((if otherPlayer (pre_point_state st).current_server = 0 then
          (record_point_and_stats st (.doubleFault b)).per_set_stats_p1
        else (record_point_and_stats st (.doubleFault b)).per_set_stats_p2).getD
        st.current_set_index PlayerStats.init) =
      retStats ((if otherPlayer (pre_point_state st).current_server = 0 then
          st.per_set_stats_p1
        else st.per_set_stats_p2).getD st.current_set_index PlayerStats.init) := by
  obtain ⟨hm, hs⟩ := retObs_record_point_df st b st.current_set_index
  simp only [retMatchObs, Prod.mk.injEq] at hm
  simp only [retSetObs, Prod.mk.injEq] at hs
  by_cases hr : otherPlayer (pre_point_state st).current_server = 0 <;>
    simp only [hr, if_true, if_false, ite_true, ite_false]
  · exact ⟨hm.1, hs.1⟩
  · exact ⟨hm.2, hs.2⟩

/-- **C2**: in any tiebreak the server for the point at 0-based index
`i = tb_points_p1 + tb_points_p2` (points already played) is the
tiebreak start server exactly when `i % 4 ∈ {0, 3}`, and the other
player otherwise; in particular for `i = 0..11` with start server
player A (`0`) the servers follow A,B,B,A,A,B,B,A,A,B,B,A. -/
theorem tiebreak_server_122_pattern (st : MatchState) :
    ((compute_tiebreak_server st).current_server =
      (if (st.tb_points_p1 + st.tb_points_p2) % 4 = 0 ∨
          (st.tb_points_p1 + st.tb_points_p2) % 4 = 3 then
        st.tb_start_server
      else otherPlayer st.tb_start_server)) ∧
    ((compute_tiebreak_server st).current_server = st.tb_start_server ↔
      ((st.tb_points_p1 + st.tb_points_p2) % 4 = 0 ∨
        (st.tb_points_p1 + st.tb_points_p2) % 4 = 3)) ∧
    (List.range 12).map (fun i =>
        (compute_tiebreak_server
          { initState 1 1 with
            tb_start_server := 0, tb_points_p1 := i, tb_points_p2 := 0 }).current_server) =
      [0, 1, 1, 0, 0, 1, 1, 0, 0, 1, 1, 0] := by
  refine ⟨?_, ?_, by decide⟩
  · simp only [compute_tiebreak_server, otherPlayer]
    split <;> rfl
  · simp only [compute_tiebreak_server]
    constructor
    · intro h
      by_cases hc : (st.tb_points_p1 + st.tb_points_p2) % 4 = 0 ∨
          (st.tb_points_p1 + st.tb_points_p2) % 4 = 3
      · exact hc
      · exfalso
        simp only [hc, if_false, ite_false] at h
        by_cases hz : st.tb_start_server = 0 <;> simp [hz] at h
        exact hz h.symm
    · intro hc
      simp only [hc, if_true, ite_true]

/-- **C3**: recording any point event first pushes a deep-copy snapshot
of the current state; one top-level undo (`pop_history`) afterwards
succeeds and restores a state equal in all fields (stats, log and all)
to the state before the point, together with the previous history
stack. -/
theorem point_undo_roundtrip (st : MatchState) (h : List MatchState) (ev : Event)
    (hov : match_is_over_now st = false) :
    pop_history (applyOp (st, h) (.point ev)) = (true, (st, h)) := by
  simp only [applyOp, hov, Bool.false_eq_true, if_false, ite_false, pop_history]

/-- Witness for `point_undo_roundtrip` at a concrete fresh match. -/
theorem point_undo_roundtrip_witness :
    match_is_over_now (initState 1 1) = false ∧
      pop_history (applyOp (initState 1 1, []) (.point .aceFirst)) =
        (true, (initState 1 1, [])) :=
  ⟨by decide, point_undo_roundtrip (initState 1 1) [] .aceFirst (by decide)⟩

/-- **C7 counterexample**: at raw points 4-0 the claimed predicate
(`leader ≥ 3` and (`trailer ≤ 2` or `leader = trailer + 1`)) holds, but
`is_game_point_for 4 0 = false` — the code requires the leader to be at
exactly 3 points when the trailer is at 2 or fewer. -/
theorem is_game_point_claim_counterexample :
    is_game_point_for 4 0 = false ∧ (3 ≤ 4 ∧ (0 ≤ 2 ∨ 4 = 0 + 1)) := by
  decide

/-- **C7 (amended)**: `is_game_point_for leader trailer = true` iff
either `leader = 3` and `trailer ≤ 2`, or both are at least 3 and
`leader = trailer + 1`. -/
theorem is_game_point_for_spec (gp_winner gp_loser : Nat) :
    is_game_point_for gp_winner gp_loser = true ↔
      ((gp_winner = 3 ∧ gp_loser ≤ 2) ∨
        (3 ≤ gp_winner ∧ 3 ≤ gp_loser ∧ gp_winner = gp_loser + 1)) := by
  unfold is_game_point_for
  repeat' split
  all_goals simp_all
  all_goals omega

/-- **C9**: undo takes no input and reports failure exactly when the
history stack is empty; on failure the state (and stack) are returned
unchanged. -/
theorem pop_history_empty_spec (sys : Sys) :
    ((pop_history sys).1 = false ↔ sys.2 = []) ∧
      (sys.2 = [] → pop_history sys = (false, sys)) := by
  obtain ⟨st, h⟩ := sys
  cases h <;> simp [pop_history]

/-- Witness for `pop_history_empty_spec` on an empty history. -/
theorem pop_history_empty_spec_witness :
    pop_history (initState 1 1, ([] : List MatchState)) =
      (false, (initState 1 1, [])) :=
  (pop_history_empty_spec (initState 1 1, [])).2 rfl

/-- `give_point_regular` restated with the claim's win condition (the
point winner has at least 4 raw points and leads by at least 2) in
place of the source's symmetric test, for any state whose game is not
already over. -/
theorem give_point_regular_eq (st : MatchState) (w : Nat)
    (hw : w = 0 ∨ w = 1)
    (hnot : ¬ ((4 ≤ st.game_points_p1 ∨ 4 ≤ st.game_points_p2) ∧
      (st.game_points_p1 + 2 ≤ st.game_points_p2 ∨
        st.game_points_p2 + 2 ≤ st.game_points_p1))) :
    give_point_regular st w =
      (if 4 ≤ (if w = 0 then (bump_game_point st w).game_points_p1
               else (bump_game_point st w).game_points_p2) ∧
          (if w = 0 then (bump_game_point st w).game_points_p2
           else (bump_game_point st w).game_points_p1) + 2 ≤
            (if w = 0 then (bump_game_point st w).game_points_p1
             else (bump_game_point st w).game_points_p2) then
        after_game_award (award_game (bump_game_point st w) w)
      else bump_game_point st w) := by
  rcases hw with rfl | rfl <;>
    simp only [give_point_regular, bump_game_point, if_true, if_false, ite_true,
      ite_false, Nat.one_ne_zero, reduceIte] <;>
    split_ifs with h1 h2 h3 <;> try rfl
  all_goals (exfalso; omega)

/-- `award_game`: the winner's game count in the current set is
incremented, the server alternates, and both game-point counters are
reset. -/
theorem award_game_spec (st : MatchState) (p : Nat)
    (hidx : st.current_set_index < st.sets.length) :
    (award_game st p).current_server = otherPlayer st.current_server ∧
    (award_game st p).game_points_p1 = 0 ∧
    (award_game st p).game_points_p2 = 0 ∧
    (award_game st p).sets.getD st.current_set_index SetScore.init =
      (if p = 0 then
        { st.sets.getD st.current_set_index SetScore.init with
          games_player1 :=
            (st.sets.getD st.current_set_index SetScore.init).games_player1 + 1 }
      else
        { st.sets.getD st.current_set_index SetScore.init with
          games_player2 :=
            (st.sets.getD st.current_set_index SetScore.init).games_player2 + 1 }) := by
  refine ⟨rfl, rfl, rfl, ?_⟩
  unfold award_game
  dsimp only
  exact getD_updAt_self _ _ _ _ hidx

/-- **C5**: in regular-game mode, after the point is credited the game
is won exactly when the winner's raw point count is ≥ 4 and exceeds the
opponent's by ≥ 2 (the first conjunct rewrites `give_point_regular`
into that form), and on a game win `award_game` increments the winner's
game count in the current set, flips `currentServer`, and resets both
game-point counters (remaining conjuncts). -/
theorem give_point_regular_game_win_spec (st : MatchState) (w : Nat)
    (hw : w = 0 ∨ w = 1)
    (hnot : ¬ ((4 ≤ st.game_points_p1 ∨ 4 ≤ st.game_points_p2) ∧
      (st.game_points_p1 + 2 ≤ st.game_points_p2 ∨
        st.game_points_p2 + 2 ≤ st.game_points_p1)))
    (hidx : st.current_set_index < st.sets.length) :
    (give_point_regular st w =
      (if 4 ≤ (if w = 0 then (bump_game_point st w).game_points_p1
               else (bump_game_point st w).game_points_p2) ∧
          (if w = 0 then (bump_game_point st w).game_points_p2
           else (bump_game_point st w).game_points_p1) + 2 ≤
            (if w = 0 then (bump_game_point st w).game_points_p1
             else (bump_game_point st w).game_points_p2) then
        after_game_award (award_game (bump_game_point st w) w)
      else bump_game_point st w)) ∧
    (award_game (bump_game_point st w) w).current_server =
      otherPlayer st.current_server ∧
    (award_game (bump_game_point st w) w).game_points_p1 = 0 ∧
    (award_game (bump_game_point st w) w).game_points_p2 = 0 ∧
    (award_game (bump_game_point st w) w).sets.getD st.current_set_index SetScore.init =
      (if w = 0 then
        { st.sets.getD st.current_set_index SetScore.init with
          games_player1 :=
            (st.sets.getD st.current_set_index SetScore.init).games_player1 + 1 }
      else
        { st.sets.getD st.current_set_index SetScore.init with
          games_player2 :=
            (st.sets.getD st.current_set_index SetScore.init).games_player2 + 1 }) := by
  refine ⟨give_point_regular_eq st w hw hnot, ?_⟩
  rcases hw with rfl | rfl <;>
    exact award_game_spec (bump_game_point st _) _ hidx

/-- Witness for `give_point_regular_game_win_spec`: from 40-15 (raw
3-1) player 1 wins the point and the game. -/
theorem give_point_regular_game_win_spec_witness :
    give_point_regular
        { initState 1 1 with game_points_p1 := 3, game_points_p2 := 1 } 0 =
      after_game_award (award_game
        (bump_game_point
          { initState 1 1 with game_points_p1 := 3, game_points_p2 := 1 } 0) 0) := by
  have h := give_point_regular_game_win_spec
    { initState 1 1 with game_points_p1 := 3, game_points_p2 := 1 } 0
    (Or.inl rfl) (by decide) (by decide)
  exact h.1.trans (by decide)

theorem getLastD_append_single (l : List α) (a d : α) : (l ++ [a]).getLastD d = a := by
  induction l with
  | nil => rfl
  | cons x xs ih =>
    cases xs with
    | nil => rfl
    | cons y ys => simpa using ih

/-- **C6**: when a set closes and the match is not yet decided, the
state switches directly into match-tiebreak-10 mode (tiebreak counters
zeroed, no new set) exactly when two sets are complete at one set each
under a `MatchTiebreak10` decider; in every other undecided case a
fresh `SetRecord` is appended (current index at the new last entry,
game and tiebreak point counters reset, set-tiebreak flag cleared); if
the match is decided, neither happens. -/
theorem close_set_decider_spec (st : MatchState) (w : Nat)
    (hT : st.in_match_tiebreak10 = false) :
    ((¬ (st.sets_won_p1 + (if w = 0 then 1 else 0) = st.sets_to_win ∨
         st.sets_won_p2 + (if w = 0 then 0 else 1) = st.sets_to_win)) →
      ((st.sets.length = 2 ∧ st.format.deciding = DecidingSetType.tb10 ∧
          st.sets_won_p1 + (if w = 0 then 1 else 0) = 1 ∧
          st.sets_won_p2 + (if w = 0 then 0 else 1) = 1) →
        (close_set_and_prepare_next st w).in_match_tiebreak10 = true ∧
        (close_set_and_prepare_next st w).tb_points_p1 = 0 ∧
        (close_set_and_prepare_next st w).tb_points_p2 = 0 ∧
        (close_set_and_prepare_next st w).sets.length = st.sets.length) ∧
      (¬ (st.sets.length = 2 ∧ st.format.deciding = DecidingSetType.tb10 ∧
          st.sets_won_p1 + (if w = 0 then 1 else 0) = 1 ∧
          st.sets_won_p2 + (if w = 0 then 0 else 1) = 1) →
        (close_set_and_prepare_next st w).sets.length = st.sets.length + 1 ∧
        (close_set_and_prepare_next st w).current_set_index + 1 =
          (close_set_and_prepare_next st w).sets.length ∧
        (close_set_and_prepare_next st w).sets.getLastD SetScore.init = SetScore.init ∧
        (close_set_and_prepare_next st w).game_points_p1 = 0 ∧
        (close_set_and_prepare_next st w).game_points_p2 = 0 ∧
        (close_set_and_prepare_next st w).in_set_tiebreak = false ∧
        (close_set_and_prepare_next st w).in_match_tiebreak10 = false ∧
        (close_set_and_prepare_next st w).tb_points_p1 = 0 ∧
        (close_set_and_prepare_next st w).tb_points_p2 = 0)) ∧
    ((st.sets_won_p1 + (if w = 0 then 1 else 0) = st.sets_to_win ∨
        st.sets_won_p2 + (if w = 0 then 0 else 1) = st.sets_to_win) →
      (close_set_and_prepare_next st w).sets.length = st.sets.length ∧
      (close_set_and_prepare_next st w).in_set_tiebreak = st.in_set_tiebreak ∧
      (close_set_and_prepare_next st w).in_match_tiebreak10 = false ∧
      (close_set_and_prepare_next st w).current_set_index = st.current_set_index) := by
  by_cases hw : w = 0 <;>
    simp only [close_set_and_prepare_next, hw, ite_true, ite_false, if_true, if_false,
      Nat.one_ne_zero, reduceIte, length_updAt, Nat.add_zero] <;>
    refine ⟨fun hno => ⟨fun hc => ?_, fun hnc => ?_⟩, fun hov => ?_⟩ <;>
      split_ifs <;>
      simp_all [start_new_set, getLastD_append_single, hT]

/-- Witness for `close_set_decider_spec`: one set each after two sets
under the TB10-decider format switches into the match tiebreak. -/
theorem close_set_decider_spec_witness :
    (close_set_and_prepare_next
        { initState 1 2 with
          sets := [SetScore.init, SetScore.init], sets_won_p2 := 1 } 0).in_match_tiebreak10 =
      true ∧
    (close_set_and_prepare_next
        { initState 1 2 with
          sets := [SetScore.init, SetScore.init], sets_won_p2 := 1 } 0).tb_points_p1 = 0 ∧
    (close_set_and_prepare_next
        { initState 1 2 with
          sets := [SetScore.init, SetScore.init], sets_won_p2 := 1 } 0).tb_points_p2 = 0 ∧
    (close_set_and_prepare_next
        { initState 1 2 with
          sets := [SetScore.init, SetScore.init], sets_won_p2 := 1 } 0).sets.length =
      ({ initState 1 2 with
          sets := [SetScore.init, SetScore.init], sets_won_p2 := 1 } : MatchState).sets.length :=
  ((close_set_decider_spec
      { initState 1 2 with sets := [SetScore.init, SetScore.init], sets_won_p2 := 1 }
      0 rfl).1 (by decide)).1 (by decide)

/-! ### Current-set-index invariant (C8) -/

/-- States in which the current set index points at the last
`SetRecord`, together with the bookkeeping facts needed to push this
through the match tiebreak-10: the format requires 2 sets to win, and
the TB10 can only be live at one set all. -/
def GoodSt (st : MatchState) : Prop :=
  st.sets_to_win = 2 ∧
  st.current_set_index + 1 = st.sets.length ∧
  (st.in_match_tiebreak10 = true →
    st.in_set_tiebreak = false ∧ st.sets_won_p1 = 1 ∧ st.sets_won_p2 = 1)

/-- States after the match has been closed through the match
tiebreak-10: the synthetic decider record has been appended, so the
current set index points at the second-to-last `SetRecord`. -/
def DoneTB10 (st : MatchState) : Prop :=
  st.sets_to_win = 2 ∧ match_is_over_now st = true ∧
    st.current_set_index + 2 = st.sets.length

theorem goodSt_congr_scoreObs {a b : MatchState} (h : scoreObs a = scoreObs b) :
    GoodSt a ↔ GoodSt b := by
  unfold scoreObs at h
  simp only [Prod.mk.injEq] at h
  obtain ⟨-, -, h3, h4, h5, -, -, h8, h9, -, -, h12, h13⟩ := h
  unfold GoodSt
  rw [h3, h4, h5, h8, h9, h12, h13]

theorem match_is_over_congr_scoreObs {a b : MatchState} (h : scoreObs a = scoreObs b) :
    match_is_over_now a = match_is_over_now b := by
  unfold scoreObs at h
  simp only [Prod.mk.injEq] at h
  obtain ⟨-, -, h3, -, -, -, -, -, -, -, -, h12, h13⟩ := h
  unfold match_is_over_now
  rw [h3, h12, h13]

theorem inv_close_set (st : MatchState) (w : Nat)
    (h2 : st.sets_to_win = 2) (hst : st.in_set_tiebreak = false)
    (hmt : st.in_match_tiebreak10 = false)
    (hidx : st.current_set_index + 1 = st.sets.length) :
    GoodSt (close_set_and_prepare_next st w) := by
  by_cases hw : w = 0 <;>
    simp only [close_set_and_prepare_next, hw, ite_true, ite_false, if_true, if_false,
      Nat.one_ne_zero, reduceIte] <;>
    split_ifs with hov hcond <;>
    unfold GoodSt <;>
    refine ⟨?_, ?_, ?_⟩ <;>
    simp_all [start_new_set]

theorem goodSt_enter_set_tiebreak (st : MatchState)
    (h2 : st.sets_to_win = 2) (hmt : st.in_match_tiebreak10 = false)
    (hidx : st.current_set_index + 1 = st.sets.length) :
    GoodSt (enter_set_tiebreak st) := by
  refine ⟨h2, by simpa [enter_set_tiebreak] using hidx, fun hmt10 => ?_⟩
  exact absurd hmt10 (by simp [enter_set_tiebreak, hmt])

theorem goodSt_after_game_award (st : MatchState)
    (h2 : st.sets_to_win = 2) (hst : st.in_set_tiebreak = false)
    (hmt : st.in_match_tiebreak10 = false)
    (hidx : st.current_set_index + 1 = st.sets.length) :
    GoodSt (after_game_award st) := by
  simp only [after_game_award]
  split_ifs with hc htb
  all_goals try exact goodSt_enter_set_tiebreak st h2 hmt hidx
  all_goals try exact ⟨h2, hidx, fun hmt10 => absurd hmt10 (by simp [hmt])⟩
  all_goals try (exfalso; simp [enter_set_tiebreak] at htb)
  all_goals
    split
    · exact inv_close_set _ _ h2 hst hmt hidx
    · exact ⟨h2, hidx, fun hmt10 => absurd hmt10 (by simp [hmt])⟩

theorem goodSt_give_point_regular (st : MatchState) (w : Nat)
    (hG : GoodSt st) (hst : st.in_set_tiebreak = false)
    (hmt : st.in_match_tiebreak10 = false) :
    GoodSt (give_point_regular st w) := by
  obtain ⟨h2, hidx, -⟩ := hG
  have hb2 : (bump_game_point st w).sets_to_win = 2 := by
    unfold bump_game_point; split <;> exact h2
  have hbidx : (bump_game_point st w).current_set_index + 1 =
      (bump_game_point st w).sets.length := by
    unfold bump_game_point; split <;> exact hidx
  have hbst : (bump_game_point st w).in_set_tiebreak = false := by
    unfold bump_game_point; split <;> exact hst
  have hbmt : (bump_game_point st w).in_match_tiebreak10 = false := by
    unfold bump_game_point; split <;> exact hmt
  simp only [give_point_regular]
  split_ifs with hA hB hC
  all_goals try exact ⟨hb2, hbidx, fun hmt10 => absurd hmt10 (by simp [hbmt])⟩
  all_goals
    refine goodSt_after_game_award _ hb2 hbst hbmt ?_
  all_goals simpa [award_game, length_updAt] using hbidx
theorem goodSt_give_point_tiebreak_set (st : MatchState) (w : Nat)
    (hG : GoodSt st) (hst : st.in_set_tiebreak = true) :
    GoodSt (give_point_tiebreak st w true) := by
  obtain ⟨h2, hidx, himp⟩ := hG
  have hmt : st.in_match_tiebreak10 = false := by
    by_cases h : st.in_match_tiebreak10 = true
    · exact absurd (himp h).1 (by simp [hst])
    · simpa using h
  have hb2 : ∀ x : MatchState, x.sets_to_win = 2 → ∀ y : Nat,
      ((if w = 0 then { x with tb_points_p1 := x.tb_points_p1 + 1 }
        else { x with tb_points_p2 := x.tb_points_p2 + 1 }) : MatchState).sets_to_win = 2 := by
    intro x hx y; split <;> exact hx
  simp only [give_point_tiebreak, if_true, ite_true]
  have h2' : ((if w = 0 then { st with tb_points_p1 := st.tb_points_p1 + 1 }
      else { st with tb_points_p2 := st.tb_points_p2 + 1 }) : MatchState).sets_to_win = 2 := by
    split <;> exact h2
  have hidx' : ((if w = 0 then { st with tb_points_p1 := st.tb_points_p1 + 1 }
      else { st with tb_points_p2 := st.tb_points_p2 + 1 }) : MatchState).current_set_index + 1 =
      ((if w = 0 then { st with tb_points_p1 := st.tb_points_p1 + 1 }
       else { st with tb_points_p2 := st.tb_points_p2 + 1 }) : MatchState).sets.length := by
    split <;> exact hidx
  have hmt' : ((if w = 0 then { st with tb_points_p1 := st.tb_points_p1 + 1 }
      else { st with tb_points_p2 := st.tb_points_p2 + 1 }) : MatchState).in_match_tiebreak10 =
      false := by
    split <;> exact hmt
  split
  · apply inv_close_set
    · exact h2'
    · rfl
    · exact hmt'
    · simpa [length_updAt] using hidx'
  · exact ⟨h2', hidx', fun h10 => absurd h10 (by simp [hmt'])⟩

theorem inv_give_point_tiebreak_tb10 (st : MatchState) (w : Nat)
    (h2 : st.sets_to_win = 2) (hidx : st.current_set_index + 1 = st.sets.length)
    (hset : st.in_set_tiebreak = false) (hmt : st.in_match_tiebreak10 = true)
    (hw1 : st.sets_won_p1 = 1) (hw2 : st.sets_won_p2 = 1) :
    GoodSt (give_point_tiebreak st w false) ∨
      DoneTB10 (give_point_tiebreak st w false) := by
  have h2' : ((if w = 0 then { st with tb_points_p1 := st.tb_points_p1 + 1 }
      else { st with tb_points_p2 := st.tb_points_p2 + 1 }) : MatchState).sets_to_win = 2 := by
    split <;> exact h2
  have hidx' : ((if w = 0 then { st with tb_points_p1 := st.tb_points_p1 + 1 }
      else { st with tb_points_p2 := st.tb_points_p2 + 1 }) : MatchState).current_set_index + 1 =
      ((if w = 0 then { st with tb_points_p1 := st.tb_points_p1 + 1 }
       else { st with tb_points_p2 := st.tb_points_p2 + 1 }) : MatchState).sets.length := by
    split <;> exact hidx
  have hset' : ((if w = 0 then { st with tb_points_p1 := st.tb_points_p1 + 1 }
      else { st with tb_points_p2 := st.tb_points_p2 + 1 }) : MatchState).in_set_tiebreak =
      false := by
    split <;> exact hset
  have hw1' : ((if w = 0 then { st with tb_points_p1 := st.tb_points_p1 + 1 }
      else { st with tb_points_p2 := st.tb_points_p2 + 1 }) : MatchState).sets_won_p1 = 1 := by
    split <;> exact hw1
  have hw2' : ((if w = 0 then { st with tb_points_p1 := st.tb_points_p1 + 1 }
      else { st with tb_points_p2 := st.tb_points_p2 + 1 }) : MatchState).sets_won_p2 = 1 := by
    split <;> exact hw2
  simp only [give_point_tiebreak, Bool.false_eq_true, if_false, ite_false]
  split
  · -- TB10 decided: the synthetic decider record is appended
    right
    refine ⟨?_, ?_, ?_⟩ <;> split_ifs <;>
      simp_all [DoneTB10, match_is_over_now, List.length_append]
  · left
    exact ⟨h2', hidx', fun _ => ⟨hset', hw1', hw2'⟩⟩

theorem inv_finish_point (st : MatchState) (w : Nat) (hG : GoodSt st) :
    GoodSt (finish_point st w) ∨ DoneTB10 (finish_point st w) := by
  obtain ⟨h2, hidx, himp⟩ := hG
  simp only [finish_point]
  split_ifs with hs1 hs2
  · exact Or.inl (goodSt_give_point_tiebreak_set st w ⟨h2, hidx, himp⟩ hs1)
  · obtain ⟨hset, hw1, hw2⟩ := himp hs2
    exact inv_give_point_tiebreak_tb10 st w h2 hidx hset hs2 hw1 hw2
  · exact Or.inl (goodSt_give_point_regular st w ⟨h2, hidx, himp⟩
      (by simpa using hs1) (by simpa using hs2))

theorem goodSt_apply_event_stats (st : MatchState) (wbp : Bool) (e0 : PointLogEntry)
    (ev : Event) (hG : GoodSt st) : GoodSt (apply_event_stats st wbp e0 ev) :=
  (goodSt_congr_scoreObs (scoreObs_apply_event_stats st wbp e0 ev)).mpr hG

theorem goodSt_pre_point_state (st : MatchState) (hG : GoodSt st) :
    GoodSt (pre_point_state st) :=
  (goodSt_congr_scoreObs (scoreObs_pre_point_state st)).mpr hG

theorem inv_record_point (st : MatchState) (ev : Event) (hG : GoodSt st) :
    GoodSt (record_point_and_stats st ev) ∨ DoneTB10 (record_point_and_stats st ev) := by
  simp only [record_point_and_stats]
  exact inv_finish_point _ _
    (goodSt_apply_event_stats _ _ _ _ (goodSt_pre_point_state st hG))

/-- Invariant carried by the live state and every snapshot on the
history stack. -/
def SysInv (sys : Sys) : Prop :=
  (GoodSt sys.1 ∨ DoneTB10 sys.1) ∧ ∀ s ∈ sys.2, GoodSt s ∨ DoneTB10 s

theorem sysInv_applyOp (sys : Sys) (op : Op) (h : SysInv sys) :
    SysInv (applyOp sys op) := by
  obtain ⟨st, stack⟩ := sys
  obtain ⟨h1, h2⟩ := h
  cases op with
  | point ev =>
    simp only [applyOp]
    split_ifs with hov
    · exact ⟨h1, h2⟩
    · have hG : GoodSt st := by
        rcases h1 with hG | hD
        · exact hG
        · exact absurd hD.2.1 (by simpa using hov)
      refine ⟨inv_record_point _ _ hG, fun s hs => ?_⟩
      rcases List.mem_cons.mp hs with rfl | hs'
      · exact h1
      · exact h2 s hs'
  | undo =>
    simp only [applyOp, pop_history]
    cases stack with
    | nil => exact ⟨h1, h2⟩
    | cons s rest =>
      exact ⟨h2 s (List.mem_cons_self ..),
        fun x hx => h2 x (List.mem_cons_of_mem _ hx)⟩
  | chooseTB10Server c =>
    simp only [applyOp]
    split_ifs with hc
    all_goals exact ⟨h1, h2⟩

theorem sysInv_applyOps (ops : List Op) (sys : Sys) (h : SysInv sys) :
    SysInv (applyOps sys ops) := by
  induction ops generalizing sys with
  | nil => exact h
  | cons op ops ih => exact ih _ (sysInv_applyOp sys op h)

theorem sysInv_initSys (sfirst fchoice : Nat) : SysInv (initSys sfirst fchoice) := by
  refine ⟨Or.inl ⟨rfl, rfl, fun h => ?_⟩, by simp [initSys]⟩
  simp [initSys, initState, start_new_set] at h

/-- **C8 (amended)**: after any sequence of main-loop operations from
the initial state, the current set index points at the last entry of
the `SetRecord` sequence — except when the match was closed through the
match tiebreak-10, whose synthetic appended `SetRecord` is *not*
tracked by `current_set_index`: there the index points at the
second-to-last entry. -/
theorem current_set_index_invariant (sfirst fchoice : Nat) (ops : List Op) :
    (applyOps (initSys sfirst fchoice) ops).1.current_set_index + 1 =
        (applyOps (initSys sfirst fchoice) ops).1.sets.length ∨
      (match_is_over_now (applyOps (initSys sfirst fchoice) ops).1 = true ∧
        (applyOps (initSys sfirst fchoice) ops).1.current_set_index + 2 =
          (applyOps (initSys sfirst fchoice) ops).1.sets.length) := by
  rcases (sysInv_applyOps ops _ (sysInv_initSys sfirst fchoice)).1 with hG | hD
  · exact Or.inl hG.2.1
  · exact Or.inr ⟨hD.2.1, hD.2.2⟩

/-- An event that player `p` wins from state `st`: an ace when `p` is
about to serve, a return winner otherwise. -/
def winEventFor (st : MatchState) (p : Nat) : Event :=
  let st := pre_point_state st
  if st.current_server = p then .aceFirst else .serveIn .firstIn .returnWinner

/-- Main-loop point operations making the listed players win the
successive points. -/
def opsOfWinners : MatchState → List Nat → List Op
  | _, [] => []
  | st, p :: ps =>
    let ev := winEventFor st p
    Op.point ev :: opsOfWinners (stepPoint st ev) ps

/-- A full match under format 2 (match-TB10 decider): player 1 takes
set 1 six games to love (24 points), player 2 takes set 2 six games to
love, the TB10 start server is chosen, and player 1 takes the match
tiebreak 10-0. -/
def tb10MatchOps : List Op :=
  opsOfWinners (initState 1 2) (List.replicate 24 0 ++ List.replicate 24 1) ++
    [Op.chooseTB10Server 1] ++
    opsOfWinners
      (applyOps (initSys 1 2)
        (opsOfWinners (initState 1 2) (List.replicate 24 0 ++ List.replicate 24 1) ++
          [Op.chooseTB10Server 1])).1
      (List.replicate 10 0)

set_option maxRecDepth 40000 in
/-- **C8 counterexample**: at the end of the reachable trace
`tb10MatchOps` the set list has three records (the third is the
synthetic TB10 decider row) while `current_set_index` still points at
index 1 — so the current set index does *not* equal the index of the
last `SetRecord`. -/
theorem current_set_index_tb10_counterexample :
    (applyOps (initSys 1 2) tb10MatchOps).1.sets.length = 3 ∧
    (applyOps (initSys 1 2) tb10MatchOps).1.current_set_index = 1 ∧
    ¬ ((applyOps (initSys 1 2) tb10MatchOps).1.current_set_index =
        (applyOps (initSys 1 2) tb10MatchOps).1.sets.length - 1) := by
  refine ⟨by decide, by decide, by decide⟩

end TennisTracker
